import Mathlib

/-!
Verification development for the genai-brd-functions repository.

The repository implements a two-stage document pipeline as Google Cloud
Functions:

* `src/src/asset_indexer/main.py` (the ingest stage): copies an uploaded file
  from a drop bucket to a processed bucket, records per-stage execution status
  in Firestore, and publishes a hand-off message to a Pub/Sub topic.
* `src/src/content_processor/main.py` (the extraction stage): consumes the
  hand-off message, downloads the document, extracts tables (a stub), records
  status, and publishes a completion message.

This file gives a shallow embedding of the coordination core: Python values
and dictionaries, the Firestore merge-upsert (`doc_ref.set(data, merge=True)`),
the `Document` / `FunctionStatus` / `PubSubMessage` classes of
`common/base.py`, and the two stage bodies as state-passing functions that
also emit a trace of externally observable events.  External collaborators
(the storage client, the Pub/Sub publisher, the Firestore transport, clock
and random-token generation) are abstracted: their outcomes are inputs to the
run functions, and timestamps and generated ids are explicit parameters.
-/

namespace Brd

/-- Python runtime values, restricted to the shapes this code base builds:
None, booleans, integers, strings, lists and string-keyed dictionaries. -/
inductive PyVal where
  | pnone : PyVal
  | pbool : Bool → PyVal
  | pint : Int → PyVal
  | pstr : String → PyVal
  | plist : List PyVal → PyVal
  | pdict : List (String × PyVal) → PyVal

mutual
/-- Boolean equality on Python values. -/
def PyVal.beq : PyVal → PyVal → Bool
  | .pnone, .pnone => true
  | .pbool a, .pbool b => a == b
  | .pint a, .pint b => a == b
  | .pstr a, .pstr b => a == b
  | .plist a, .plist b => PyVal.beqList a b
  | .pdict a, .pdict b => PyVal.beqEntries a b
  | _, _ => false
termination_by structural a _ => a
/-- Boolean equality on lists of Python values. -/
def PyVal.beqList : List PyVal → List PyVal → Bool
  | [], [] => true
  | x :: xs, y :: ys => PyVal.beq x y && PyVal.beqList xs ys
  | _, _ => false
termination_by structural a _ => a
/-- Boolean equality on dictionary entry lists. -/
def PyVal.beqEntries : List (String × PyVal) → List (String × PyVal) → Bool
  | [], [] => true
  | (k1, v1) :: xs, (k2, v2) :: ys =>
    k1 == k2 && PyVal.beq v1 v2 && PyVal.beqEntries xs ys
  | _, _ => false
termination_by structural a _ => a
end

mutual
/-- Soundness of `PyVal.beq`. -/
def PyVal.eq_of_beq : (a b : PyVal) → PyVal.beq a b = true → a = b
  | .pnone, b, h => by cases b <;> simp_all [PyVal.beq]
  | .pbool x, b, h => by cases b <;> simp_all [PyVal.beq]
  | .pint x, b, h => by cases b <;> simp_all [PyVal.beq]
  | .pstr x, b, h => by cases b <;> simp_all [PyVal.beq]
  | .plist xs, b, h => by
    cases b <;> simp_all [PyVal.beq]
    exact PyVal.eq_of_beqList xs _ h
  | .pdict d, b, h => by
    cases b <;> simp_all [PyVal.beq]
    exact PyVal.eq_of_beqEntries d _ h
termination_by structural a _ _ => a
/-- Soundness of `PyVal.beqList`. -/
def PyVal.eq_of_beqList : (a b : List PyVal) → PyVal.beqList a b = true → a = b
  | [], [], _ => rfl
  | [], _ :: _, h => by simp [PyVal.beqList] at h
  | _ :: _, [], h => by simp [PyVal.beqList] at h
  | x :: xs, y :: ys, h => by
    simp only [PyVal.beqList, Bool.and_eq_true] at h
    rw [PyVal.eq_of_beq x y h.1, PyVal.eq_of_beqList xs ys h.2]
termination_by structural a _ _ => a
/-- Soundness of `PyVal.beqEntries`. -/
def PyVal.eq_of_beqEntries : (a b : List (String × PyVal)) → PyVal.beqEntries a b = true → a = b
  | [], [], _ => rfl
  | [], _ :: _, h => by simp [PyVal.beqEntries] at h
  | _ :: _, [], h => by simp [PyVal.beqEntries] at h
  | (k1, v1) :: xs, (k2, v2) :: ys, h => by
    simp only [PyVal.beqEntries, Bool.and_eq_true, beq_iff_eq] at h
    rw [h.1.1, PyVal.eq_of_beq v1 v2 h.1.2, PyVal.eq_of_beqEntries xs ys h.2]
termination_by structural a _ _ => a
end

mutual
/-- Reflexivity of `PyVal.beq`. -/
def PyVal.beq_refl : (a : PyVal) → PyVal.beq a a = true
  | .pnone => by simp [PyVal.beq]
  | .pbool x => by simp [PyVal.beq]
  | .pint x => by simp [PyVal.beq]
  | .pstr x => by simp [PyVal.beq]
  | .plist xs => by simp [PyVal.beq]; exact PyVal.beqList_refl xs
  | .pdict d => by simp [PyVal.beq]; exact PyVal.beqEntries_refl d
termination_by structural a => a
/-- Reflexivity of `PyVal.beqList`. -/
def PyVal.beqList_refl : (a : List PyVal) → PyVal.beqList a a = true
  | [] => by simp [PyVal.beqList]
  | x :: xs => by
    simp only [PyVal.beqList, Bool.and_eq_true]
    exact ⟨PyVal.beq_refl x, PyVal.beqList_refl xs⟩
termination_by structural a => a
/-- Reflexivity of `PyVal.beqEntries`. -/
def PyVal.beqEntries_refl : (a : List (String × PyVal)) → PyVal.beqEntries a a = true
  | [] => by simp [PyVal.beqEntries]
  | (k, v) :: xs => by
    simp only [PyVal.beqEntries, Bool.and_eq_true, beq_self_eq_true, true_and]
    exact ⟨PyVal.beq_refl v, PyVal.beqEntries_refl xs⟩
termination_by structural a => a
end

instance : DecidableEq PyVal := fun a b =>
  decidable_of_iff (PyVal.beq a b = true)
    ⟨PyVal.eq_of_beq a b, fun h => h ▸ PyVal.beq_refl a⟩

/-- A Python dictionary: an association list of string keys, first key wins
on lookup (the code never builds duplicate keys). -/
abbrev PyDict := List (String × PyVal)

/-- Dictionary lookup, `d.get(k)` returning `none` when the key is absent. -/
def dget : PyDict → String → Option PyVal
  | [], _ => none
  | (k', v) :: rest, k => if k' = k then some v else dget rest k

/-- Dictionary lookup with a default, `d.get(k, dflt)`. -/
def dgetD (d : PyDict) (k : String) (dflt : PyVal) : PyVal :=
  (dget d k).getD dflt

/-- Python dictionary assignment `d[k] = v`: replace the first binding of `k`
if present, otherwise append. -/
def setKey : PyDict → String → PyVal → PyDict
  | [], k, v => [(k, v)]
  | (k', v') :: rest, k, v =>
    if k' = k then (k', v) :: rest else (k', v') :: setKey rest k v

/-- Python truthiness for the value shapes above. -/
def pyTruthy : PyVal → Bool
  | .pnone => false
  | .pbool b => b
  | .pint n => n != 0
  | .pstr s => s != ""
  | .plist xs => !xs.isEmpty
  | .pdict d => !d.isEmpty

/-- Python `str()` rendering; container renderings are abbreviated, the code
only applies `str` to identifiers (strings or None) before substring tests
and filename construction. -/
def pyStr : PyVal → String
  | .pnone => "None"
  | .pbool true => "True"
  | .pbool false => "False"
  | .pint n => toString n
  | .pstr s => s
  | .plist _ => "<list>"
  | .pdict _ => "<dict>"

/-- Python `len()` as an integer value, for the sized shapes. -/
def pyLen : PyVal → PyVal
  | .plist xs => .pint xs.length
  | .pdict d => .pint d.length
  | .pstr s => .pint s.length
  | _ => .pint 0

/-- Whether a Python value is a dictionary. -/
def PyVal.isDict : PyVal → Bool
  | .pdict _ => true
  | _ => false

mutual
/-- Firestore merge of a new value onto an old value at the same key:
two maps merge recursively, any other new value replaces the old one.
This is the documented semantics of `doc_ref.set(data, merge=True)`. -/
def mergeVal : PyVal → PyVal → PyVal
  | .pdict o, .pdict n => .pdict (mergeDict o n)
  | _, n => n
termination_by structural _ b => b
/-- Firestore merge of a new dictionary onto an old one: each binding of the
new dictionary is merged into the old one in order. -/
def mergeDict (o : PyDict) : PyDict → PyDict
  | [] => o
  | (k, v) :: rest =>
    mergeDict
      (match dget o k with
        | some ov => setKey o k (mergeVal ov v)
        | none => o ++ [(k, v)])
      rest
termination_by structural n => n
end

/-- Python `d.update(extras)`: assign each binding of `extras` in order. -/
def dictUpdate (d extras : PyDict) : PyDict :=
  extras.foldl (fun acc kv => setKey acc kv.1 kv.2) d

/-- The Firestore status-record store: a map from (collection name,
document id) to the stored document data.  Document ids are `PyVal` because
`content_processor` can pass a non-string id through `document(...)`. -/
abbrev FsStore := List ((String × PyVal) × PyDict)

/-- Fetch the stored data of a document. -/
def storeGet : FsStore → String → PyVal → Option PyDict
  | [], _, _ => none
  | (key, d) :: rest, coll, id =>
    if key = (coll, id) then some d else storeGet rest coll id

/-- Replace the stored data of a document (append if absent). -/
def storeSet : FsStore → String → PyVal → PyDict → FsStore
  | [], coll, id, d => [((coll, id), d)]
  | (key, d') :: rest, coll, id, d =>
    if key = (coll, id) then (key, d) :: rest
    else (key, d') :: storeSet rest coll id d

/-- The effect of `doc_ref.set(doc_data, merge=True)`: create the document if
absent, otherwise merge the new data onto the stored data. -/
def fsSetMerge (st : FsStore) (coll : String) (id : PyVal) (d : PyDict) : FsStore :=
  match storeGet st coll id with
  | some old => storeSet st coll id (mergeDict old d)
  | none => st ++ [((coll, id), d)]

/-- A stored object in a cloud-storage bucket: its content and the optional
`source_file_name` metadata written by the ingest stage. -/
structure BlobData where
  content : String
  metadata : Option String
deriving DecidableEq

/-- The object store: a map from (bucket name, object name) to blob data. -/
abbrev ObjStore := List ((String × String) × BlobData)

/-- Look an object up by bucket and name. -/
def objGet : ObjStore → String → String → Option BlobData
  | [], _, _ => none
  | (key, b) :: rest, bucket, name =>
    if key = (bucket, name) then some b else objGet rest bucket name

/-- Upload or overwrite an object. -/
def objPut : ObjStore → String → String → BlobData → ObjStore
  | [], bucket, name, b => [((bucket, name), b)]
  | (key, b') :: rest, bucket, name, b =>
    if key = (bucket, name) then (key, b) :: rest
    else (key, b') :: objPut rest bucket name b

/-- Delete an object (`blob.delete()`), removing every binding of the key. -/
def objDel : ObjStore → String → String → ObjStore
  | [], _, _ => []
  | (key, b) :: rest, bucket, name =>
    if key = (bucket, name) then objDel rest bucket name
    else (key, b) :: objDel rest bucket name

/-- The `FunctionStatus` enumeration of `common/base.py` in both stage
packages.  It has exactly three members; there is no PENDING member. -/
inductive FunctionStatus where
  | in_progress : FunctionStatus
  | completed : FunctionStatus
  | failed : FunctionStatus
deriving DecidableEq, Fintype

/-- The string value of each `FunctionStatus` member, as in the source. -/
def FunctionStatus.value : FunctionStatus → String
  | .in_progress => "in progress"
  | .completed => "completed"
  | .failed => "failed"

/-- The `Document` class of `common/base.py` (both copies have the same
fields).  `item_type` is always `function_execution_data` here. -/
structure Document where
  id : PyVal
  item_type : String
  brd_workflow_id : PyVal
  description : String
  description_heading : String
  item : PyDict
deriving DecidableEq

/-- `Document.to_dict`: the dictionary written to Firestore. -/
def Document.to_dict (doc : Document) : PyDict :=
  [("id", doc.id),
   ("item_type", .pstr doc.item_type),
   ("brd_workflow_id", doc.brd_workflow_id),
   ("description", .pstr doc.description),
   ("description_heading", .pstr doc.description_heading),
   ("item", .pdict doc.item)]

/-- The base `function_data` fields built by the content_processor copy of
`Document.create_function_execution`; `ts` is the `datetime.utcnow()`
isoformat value of the call. -/
def cpBaseFd (ts dh desc : String) (status : FunctionStatus) : PyDict :=
  [("timestamp_created", .pstr (ts ++ "Z")),
   ("timestamp_updated", .pstr (ts ++ "Z")),
   ("description_heading", .pstr dh),
   ("description", .pstr desc),
   ("status", .pstr status.value)]

/-- The keys always present in the content_processor `function_data`
dictionary, before extras are appended. -/
def cpBaseKeys : List String :=
  ["timestamp_created", "timestamp_updated", "description_heading",
   "description", "status"]

/-- `Document.create_function_execution` of
`content_processor/common/base.py`: builds `FunctionData(**extras)` and wraps
it under `item.function_data`.  The keyword expansion requires the extras
keys to be distinct from the base keys (a duplicate keyword raises). -/
def cp_create_function_execution (id brd_workflow_id : PyVal)
    (status : FunctionStatus) (description description_heading : String)
    (extras : PyDict) (ts : String) : Document :=
  { id := id
    item_type := "function_execution_data"
    brd_workflow_id := brd_workflow_id
    description := description
    description_heading := description_heading
    item := [("function_data",
              .pdict (cpBaseFd ts description_heading description status ++ extras))] }

/-- The base `function_data` fields built by the asset_indexer copy, which
also has an explicit `environment` parameter. -/
def aiBaseFd (ts dh desc : String) (status : FunctionStatus)
    (environment : String) : PyDict :=
  [("timestamp_created", .pstr (ts ++ "Z")),
   ("timestamp_updated", .pstr (ts ++ "Z")),
   ("description_heading", .pstr dh),
   ("description", .pstr desc),
   ("status", .pstr status.value),
   ("environment", .pstr environment)]

/-- `Document.create_function_execution` of
`asset_indexer/common/base.py`: builds the base dictionary and then
`function_data.update(extras)`. -/
def ai_create_function_execution (id brd_workflow_id : PyVal)
    (status : FunctionStatus) (description description_heading : String)
    (environment : String) (extras : PyDict) (ts : String) : Document :=
  { id := id
    item_type := "function_execution_data"
    brd_workflow_id := brd_workflow_id
    description := description
    description_heading := description_heading
    item := [("function_data",
              .pdict (dictUpdate (aiBaseFd ts description_heading description status environment) extras))] }

/-- Extract the `item.function_data` dictionary of a stored record. -/
def fdOfRecord (r : PyDict) : Option PyDict :=
  match dget r "item" with
  | some (.pdict it) =>
    match dget it "function_data" with
    | some (.pdict fd) => some fd
    | _ => none
  | _ => none

/-- Read one `function_data` field of the stored record of a document. -/
def fdField (st : FsStore) (coll : String) (id : PyVal) (k : String) : Option PyVal :=
  match storeGet st coll id with
  | some r =>
    match fdOfRecord r with
    | some fd => dget fd k
    | none => none
  | none => none

/-- Read a top-level field of the stored record of a document. -/
def topField (st : FsStore) (coll : String) (id : PyVal) (k : String) : Option PyVal :=
  match storeGet st coll id with
  | some r => dget r k
  | none => none

/-- The status string recorded for a document, when present. -/
def storeStatus (st : FsStore) (coll : String) (id : PyVal) : Option String :=
  match fdField st coll id "status" with
  | some (.pstr s) => some s
  | _ => none

/-- The `PubSubMessage` class of `content_processor/common/base.py`.  Fields
hold whatever Python values the constructor received (`from_dict` can pass
None for a missing key); the constructor normalises `data` with
`data or` an empty dict and stamps the message with the construction-time
isoformat timestamp plus a Z suffix. -/
structure CPMsg where
  brd_workflow_id : PyVal
  document_id : PyVal
  data : PyVal
  processing_complete : PyVal
  timestamp : String
deriving DecidableEq

/-- The `PubSubMessage.__init__` of content_processor; `ts` is the
`datetime.utcnow().isoformat()` value of the call. -/
def CPMsg.init (brd_workflow_id document_id data processing_complete : PyVal)
    (ts : String) : CPMsg :=
  { brd_workflow_id := brd_workflow_id
    document_id := document_id
    data := if pyTruthy data then data else .pdict []
    processing_complete := processing_complete
    timestamp := ts ++ "Z" }

/-- `PubSubMessage.to_dict` of content_processor: the four fixed keys, plus
`data` only when it is truthy. -/
def CPMsg.to_dict (m : CPMsg) : PyDict :=
  [("brd_workflow_id", m.brd_workflow_id),
   ("document_id", m.document_id),
   ("timestamp", .pstr m.timestamp),
   ("processing_complete", m.processing_complete)] ++
  (if pyTruthy m.data then [("data", m.data)] else [])

/-- `PubSubMessage.from_dict` of content_processor: reads each field with
`.get`, defaulting `processing_complete` to False, and constructs a fresh
message (with a fresh timestamp `ts`). -/
def CPMsg.from_dict (d : PyDict) (ts : String) : CPMsg :=
  CPMsg.init (dgetD d "brd_workflow_id" .pnone) (dgetD d "document_id" .pnone)
    (dgetD d "data" .pnone) (dgetD d "processing_complete" (.pbool false)) ts

/-- The `PubSubMessage` class of `asset_indexer/common/base.py`; it has no
timestamp field and its `document_id` defaults to None. -/
structure AIMsg where
  brd_workflow_id : PyVal
  document_id : PyVal
  data : PyVal
  processing_complete : PyVal
deriving DecidableEq

/-- The `PubSubMessage.__init__` of asset_indexer. -/
def AIMsg.init (brd_workflow_id document_id data processing_complete : PyVal) : AIMsg :=
  { brd_workflow_id := brd_workflow_id
    document_id := document_id
    data := if pyTruthy data then data else .pdict []
    processing_complete := processing_complete }

/-- `PubSubMessage.to_dict` of asset_indexer: always writes
`brd_workflow_id` and `data`, and writes `document_id` and a literal True
`processing_complete` only when the corresponding field is truthy. -/
def AIMsg.to_dict (m : AIMsg) : PyDict :=
  [("brd_workflow_id", m.brd_workflow_id), ("data", m.data)] ++
  (if pyTruthy m.document_id then [("document_id", m.document_id)] else []) ++
  (if pyTruthy m.processing_complete then [("processing_complete", .pbool true)] else [])

/-- `PubSubMessage.from_dict` of asset_indexer. -/
def AIMsg.from_dict (d : PyDict) : AIMsg :=
  AIMsg.init (dgetD d "brd_workflow_id" .pnone) (dgetD d "document_id" .pnone)
    (dgetD d "data" .pnone) (dgetD d "processing_complete" (.pbool false))

/-- Externally observable events of one stage invocation, in order:
successful Firestore document writes, storage operations, and Pub/Sub
publications. -/
inductive Ev where
  | fsSet : String → PyVal → PyDict → Ev
  | download : String → String → Ev
  | upload : String → String → Ev
  | copy : String → String → String → String → Ev
  | patch : String → String → Ev
  | del : String → String → Ev
  | publish : PyDict → Ev
deriving DecidableEq

/-- Whether an event is a storage side effect (copy, upload, download,
delete, or metadata patch). -/
def Ev.isStorage : Ev → Bool
  | .download _ _ => true
  | .upload _ _ => true
  | .copy _ _ _ _ => true
  | .patch _ _ => true
  | .del _ _ => true
  | _ => false

/-- Whether an event is a Pub/Sub publication. -/
def Ev.isPublish : Ev → Bool
  | .publish _ => true
  | _ => false

/-- The status string inside `item.function_data` of a written document, for
Firestore write events. -/
def Ev.statusOf : Ev → Option String
  | .fsSet _ _ d =>
    match fdOfRecord d with
    | some fd =>
      match dget fd "status" with
      | some (.pstr s) => some s
      | _ => none
    | none => none
  | _ => none

/-- Whether an event is a successful write of an in-progress status record. -/
def Ev.isInProgressWrite (e : Ev) : Bool :=
  match e.statusOf with
  | some s => s == "in progress"
  | none => false

/-- The sequence of status strings written during an invocation. -/
def statusSeq (t : List Ev) : List String :=
  t.filterMap Ev.statusOf

/-- Checks the write-before-effect ordering: scanning the trace left to
right, every storage event must be preceded by a successful in-progress
status write.  The accumulator records whether such a write has been seen. -/
def checkWBE : Bool → List Ev → Bool
  | _, [] => true
  | seen, e :: rest =>
    (!e.isStorage || seen) && checkWBE (seen || e.isInProgressWrite) rest

/-- No publication event occurs in the trace. -/
def noPublish (t : List Ev) : Bool :=
  t.all (fun e => !e.isPublish)

/-- Representative message of the NotFound error raised by the storage
client when an object is missing (download, copy or delete of an absent
blob). -/
def notFoundMsg (bucket name : String) : String :=
  "404 object " ++ bucket ++ "/" ++ name ++ " not found"

/-- Representative message of a transient Firestore failure. -/
def firestoreDownMsg : String := "503 firestore unavailable"

/-- Representative message of a failed Firestore `doc_ref.set` call. -/
def fsSetFailMsg : String := "503 firestore set failed"

/-- Representative message of a failed Pub/Sub publish. -/
def pubFailMsg : String := "504 pubsub publish failed"

/-- The NameError raised by `sleep(5)` in
`content_processor/common/firestore_utils.py`: that module imports only
`sys`, `typing`, `google.cloud.firestore` and `.base`, so the name `sleep`
is unbound. -/
def sleepNameError : String := "NameError: name sleep is not defined"

/-- Index of the last dot in a character list. -/
def lastDotIdx : List Char → Option Nat
  | [] => none
  | c :: rest =>
    match lastDotIdx rest with
    | some i => some (i + 1)
    | none => if c = '.' then some 0 else none

/-- `os.path.splitext(name)[1]` for bare object names (no path separator):
the suffix from the last dot on, except when every character before that dot
is itself a dot. -/
def splitextExt (name : String) : String :=
  let cs := name.toList
  match lastDotIdx cs with
  | none => ""
  | some k =>
    if (cs.take k).any (fun c => c != '.') then String.mk (cs.drop k) else ""

/-- Configuration and external-outcome oracle of one asset_indexer
invocation: the environment bindings read at module load, whether the
storage emulator is in use, the environment label of line 120, and whether
the Firestore transport and the Pub/Sub publish succeed. -/
structure AIEnv where
  source_bucket : String
  dest_bucket : String
  collection : String
  environment : String
  storage_emulator : Bool
  fsOk : Bool
  pubOk : Bool

/-- Result of one asset_indexer invocation: the event trace, the final
Firestore store and object store, and the normal or exceptional outcome. -/
structure AIResult where
  trace : List Ev
  store : FsStore
  objs : ObjStore
  outcome : Except String Unit

/-- Modelled from the spec: `asset_indexer/main.py` imports
`firestore_upsert` from `asset_indexer/common/firestore_utils.py`, but every
line of that module is commented out, so the implementation is missing from
the source.  Following the StatusRecordStore contract of the spec, the
upsert writes the document with a merge (creating it if absent) and returns
the record id, and a transient store failure propagates to the caller. -/
def ai_firestore_upsert (fsOk : Bool) (st : FsStore) (coll : String)
    (doc : Document) : List Ev × FsStore × Except String PyVal :=
  if fsOk then
    ([Ev.fsSet coll doc.id doc.to_dict], fsSetMerge st coll doc.id doc.to_dict, .ok doc.id)
  else ([], st, .error firestoreDownMsg)

/-- The source bucket and object name of an asset_indexer invocation: from
the cloud event payload, or the mock pair when the event is None. -/
def aiSrc (env : AIEnv) (event : Option (String × String)) : String × String :=
  match event with
  | none => (env.source_bucket, "mock_confluence_brd_redacted.html")
  | some p => p

/-- Prefix a trace onto a result. -/
def prependAI (t : List Ev) (r : AIResult) : AIResult :=
  { r with trace := t ++ r.trace }

/-- The dictionary published by asset_indexer on success (main.py builds it
literally, not through PubSubMessage). -/
def aiMsgDict (brd_id : String) : PyDict :=
  [("brd_workflow_id", .pstr brd_id), ("document_id", .pstr brd_id)]

/-- The in-progress status document of asset_indexer (main.py lines 123
to 130). -/
def aiIpDoc (env : AIEnv) (brd_id ts : String) : Document :=
  ai_create_function_execution (.pstr brd_id) (.pstr brd_id) .in_progress
    "Processing BRD document" "Asset Indexer Function" env.environment [] ts

/-- The success status document of asset_indexer (main.py lines 150
to 157). -/
def aiCompletedDoc (env : AIEnv) (brd_id ts : String) : Document :=
  ai_create_function_execution (.pstr brd_id) (.pstr brd_id) .completed
    "Successfully processed BRD document" "Asset Indexer Function"
    env.environment [] ts

/-- The failure status document of asset_indexer (main.py lines 174
to 184). -/
def aiFailedDoc (env : AIEnv) (srcN dest brd_id ts e : String) : Document :=
  ai_create_function_execution (.pstr brd_id) (.pstr brd_id) .failed
    ("Failed to process BRD document: " ++ e) "Asset Indexer Function"
    env.environment
    [("source", .pstr srcN), ("dest", .pstr dest), ("error", .pstr e)] ts

/-- The except handler of asset_indexer (main.py lines 172 to 187): upsert a
FAILED record carrying the error description and the source, dest and error
extras, then re-raise the exception. -/
def ai_except (env : AIEnv) (st : FsStore) (objs : ObjStore) (t : List Ev)
    (srcN dest brd_id ts e : String) : AIResult :=
  let f := aiFailedDoc env srcN dest brd_id ts e
  match ai_firestore_upsert env.fsOk st env.collection f with
  | (tf, st', .error e2) => ⟨t ++ tf, st', objs, .error e2⟩
  | (tf, st', .ok _) => ⟨t ++ tf, st', objs, .error e⟩

/-- The try block of asset_indexer (main.py lines 135 to 170): move the
object (download and upload under the storage emulator, copy and metadata
patch otherwise), delete the source, upsert COMPLETED, publish the hand-off
message.  Any exception falls through to `ai_except`. -/
def ai_try (env : AIEnv) (st : FsStore) (objs : ObjStore)
    (srcB srcN dest brd_id ts : String) : AIResult :=
  match objGet objs srcB srcN with
  | none =>
    ai_except env st objs [] srcN dest brd_id ts (notFoundMsg srcB srcN)
  | some bd =>
    let moved : List Ev × ObjStore :=
      if env.storage_emulator then
        ([Ev.download srcB srcN, Ev.upload env.dest_bucket dest],
         objPut objs env.dest_bucket dest ⟨bd.content, none⟩)
      else
        ([Ev.copy srcB srcN env.dest_bucket dest, Ev.patch env.dest_bucket dest],
         objPut objs env.dest_bucket dest ⟨bd.content, some srcN⟩)
    let objs2 := objDel moved.2 srcB srcN
    let t2 := moved.1 ++ [Ev.del srcB srcN]
    let c := aiCompletedDoc env brd_id ts
    match ai_firestore_upsert env.fsOk st env.collection c with
    | (tc, st2, .error e) => ai_except env st2 objs2 (t2 ++ tc) srcN dest brd_id ts e
    | (tc, st2, .ok _) =>
      if env.pubOk then
        ⟨t2 ++ tc ++ [Ev.publish (aiMsgDict brd_id)], st2, objs2, .ok ()⟩
      else
        ai_except env st2 objs2 (t2 ++ tc) srcN dest brd_id ts pubFailMsg

/-- One invocation of the `asset_indexer` cloud function (main.py lines 99
to 187).  `event` carries the bucket and object name of the trigger (None
for the local mock path), `brd_id` is the value of `secrets.token_hex(5)`
and `ts` the isoformat clock reading of this invocation.  The in-progress
upsert precedes the try block; a failure there propagates without a FAILED
record. -/
def asset_indexer_run (env : AIEnv) (st : FsStore) (objs : ObjStore)
    (event : Option (String × String)) (brd_id ts : String) : AIResult :=
  let src := aiSrc env event
  let dest := brd_id ++ splitextExt src.2
  let ip := aiIpDoc env brd_id ts
  match ai_firestore_upsert env.fsOk st env.collection ip with
  | (t0, st1, .error e) => ⟨t0, st1, objs, .error e⟩
  | (t0, st1, .ok _) => prependAI t0 (ai_try env st1 objs src.1 src.2 dest brd_id ts)

/-- The base64 and JSON payload of a Pub/Sub cloud event, abstracting the
wire encoding (out of scope per the spec): either it decodes to a message
dictionary, or decoding raises. -/
inductive WireData where
  | parsable : PyDict → WireData
  | garbage : WireData
deriving DecidableEq

/-- The `data` part of a cloud event as seen by content_processor:
`msgData` is the payload under the `message` and `data` keys, None when
either key is missing. -/
structure CEWire where
  msgData : Option WireData
deriving DecidableEq

/-- An inbound cloud event for content_processor: its `type` attribute and
its `data` attribute, each possibly missing. -/
structure CPEvent where
  typ : Option String
  dat : Option CEWire
deriving DecidableEq

/-- `PubSubMessage.from_cloud_event` of content_processor: decode the
payload when the `message.data` path is present (raising when the JSON is
unparsable), and fall back to the unknown-id sentinel message when the path
is missing. -/
def CPMsg.from_cloud_event (w : CEWire) (ts : String) : Except String CPMsg :=
  match w.msgData with
  | some (.parsable d) => .ok (CPMsg.from_dict d ts)
  | some .garbage => .error "JSONDecodeError: expecting value"
  | none => .ok (CPMsg.init (.pstr "unknown_workflow_id") (.pstr "unknown_document_id")
      .pnone (.pbool false) ts)

/-- Case-insensitive substring test, `sub in s.lower()` for a fixed
lower-case `sub`. -/
def containsSub (s sub : String) : Bool :=
  (s.toLower.splitOn sub).length != 1

/-- The test-message heuristic of content_processor main.py line 174. -/
def cpIsTest (wf did : PyVal) : Bool :=
  containsSub (pyStr wf) "test" || containsSub (pyStr did) "test"

/-- Configuration and external-outcome oracle of one content_processor
invocation: environment bindings, the LOCAL_TEST flag, the environment
label, and whether Firestore `set` calls and Pub/Sub publishes succeed. -/
structure CPEnv where
  source_bucket : String
  collection : String
  is_local_test : Bool
  environment : String
  setOk : Bool
  pubOk : Bool

/-- Result of one content_processor invocation (it never writes to the
object store). -/
structure CPResult where
  trace : List Ev
  store : FsStore
  outcome : Except String String

/-- Prefix a trace onto a content_processor result. -/
def prependCP (t : List Ev) (r : CPResult) : CPResult :=
  { r with trace := t ++ r.trace }

/-- The `firestore_upsert` of
`content_processor/common/firestore_utils.py`, faithful to the source: it
converts the document, performs `doc_ref.set(doc_data, merge=True)` and a
read-back, and then evaluates `sleep(5)` — but `sleep` is not imported in
that module, so a NameError is raised inside the try block, logged by the
except clause and re-raised.  The `return doc_ref.id` line is therefore
unreachable: when the set succeeds the store is updated but the call still
raises, and when the set fails its exception is re-raised. -/
def cp_firestore_upsert (setOk : Bool) (st : FsStore) (coll : String)
    (doc : Document) : List Ev × FsStore × Except String String :=
  if setOk then
    ([Ev.fsSet coll doc.id doc.to_dict], fsSetMerge st coll doc.id doc.to_dict,
     .error sleepNameError)
  else ([], st, .error fsSetFailMsg)

/-- The message-extraction phase of content_processor (main.py lines 136 to
183), returning the workflow id, document id, message and test flag.  The
mock path covers a None event or LOCAL_TEST; a missing `type` or `data`
attribute raises a ValueError caught by the inner except, and a payload
that fails to parse raises inside `from_cloud_event`; both substitute the
error sentinels and set the test flag. -/
def cp_parse (env : CPEnv) (event : Option CPEvent) (ts : String) :
    PyVal × PyVal × CPMsg × Bool :=
  match event with
  | none =>
    (.pstr "mock_brd_id", .pstr "mock_document_id",
     CPMsg.init (.pstr "mock_brd_id") (.pstr "mock_document_id") .pnone (.pbool false) ts,
     true)
  | some e =>
    if env.is_local_test then
      (.pstr "mock_brd_id", .pstr "mock_document_id",
       CPMsg.init (.pstr "mock_brd_id") (.pstr "mock_document_id") .pnone (.pbool false) ts,
       true)
    else
      match e.typ, e.dat with
      | some _, some w =>
        (match CPMsg.from_cloud_event w ts with
         | .ok m => (m.brd_workflow_id, m.document_id, m, cpIsTest m.brd_workflow_id m.document_id)
         | .error _ =>
           (.pstr "error_workflow_id", .pstr "error_document_id",
            CPMsg.init (.pstr "error_workflow_id") (.pstr "error_document_id") .pnone (.pbool false) ts,
            true))
      | _, _ =>
        (.pstr "error_workflow_id", .pstr "error_document_id",
         CPMsg.init (.pstr "error_workflow_id") (.pstr "error_document_id") .pnone (.pbool false) ts,
         true)

/-- The in-progress status document of content_processor (main.py lines 190
to 197). -/
def cpIpDoc (env : CPEnv) (did wf : PyVal) (ts : String) : Document :=
  cp_create_function_execution did wf .in_progress
    "Processing BRD document content" "Content Processor Function"
    [("environment", .pstr env.environment)] ts

/-- The failure status document of content_processor (main.py lines 269
to 277). -/
def cpFailedDoc (env : CPEnv) (fid fwf : PyVal) (e ts : String) : Document :=
  cp_create_function_execution fid fwf .failed
    ("Failed to process BRD content: " ++ e) "Content Processor Function"
    [("environment", .pstr env.environment), ("error", .pstr e)] ts

/-- The except handler of content_processor (main.py lines 267 to 280):
upsert a FAILED record under the sentinel-defaulted ids with the error
description, then re-raise.  Because `cp_firestore_upsert` itself raises,
the NameError from the status write replaces the original exception. -/
def cp_except (env : CPEnv) (st : FsStore) (wf did : PyVal) (e ts : String) : CPResult :=
  let fid := if pyTruthy did then did else .pstr "unknown_document_id"
  let fwf := if pyTruthy wf then wf else .pstr "unknown_workflow_id"
  let f := cpFailedDoc env fid fwf e ts
  match cp_firestore_upsert env.setOk st env.collection f with
  | (tf, st2, .error e2) => ⟨tf, st2, .error e2⟩
  | (tf, st2, .ok _) => ⟨tf, st2, .error e⟩

/-- The mock document content used on the test path (main.py lines 205 to
225); abbreviated here, since `extract_tables_from_content` ignores its
argument. -/
def cpMockHtml : String := "<html>Test BRD Document with two tables</html>"

/-- `extract_tables_from_content`: a stub returning two simulated tables
regardless of the content. -/
def extract_tables_from_content (_content : String) : PyVal :=
  .plist
    [.pdict [("table_id", .pstr "table1"), ("title", .pstr "Requirements"),
             ("rows", .pint 5), ("columns", .pint 3)],
     .pdict [("table_id", .pstr "table2"), ("title", .pstr "Timeline"),
             ("rows", .pint 3), ("columns", .pint 2)]]

/-- The `title` lookup of main.py line 239: `message.data.get` with a
default when the data is truthy (a `.get` on a truthy non-dict would raise;
that shape never reaches this line). -/
def cpTitle (m : CPMsg) : PyVal :=
  if pyTruthy m.data then
    match m.data with
    | .pdict d => dgetD d "title" (.pstr "Unknown Document")
    | _ => .pstr "Unknown Document"
  else .pstr "Unknown Document"

/-- The body of content_processor after a successful in-progress upsert
(main.py lines 200 to 265): obtain the document content (mock content on
the test path, storage download otherwise), extract tables, upsert
COMPLETED with the processing results, publish the completion message.
Since `cp_firestore_upsert` always raises, this code is unreachable in any
invocation; it is modelled nonetheless. -/
def cp_try (env : CPEnv) (st : FsStore) (objs : ObjStore) (wf did : PyVal)
    (m : CPMsg) (istest : Bool) (ts : String) : CPResult :=
  let dl : List Ev × Except String String :=
    if istest then ([], .ok cpMockHtml)
    else
      match objGet objs env.source_bucket (pyStr did ++ ".html") with
      | some bd => ([Ev.download env.source_bucket (pyStr did ++ ".html")], .ok bd.content)
      | none => ([], .error (notFoundMsg env.source_bucket (pyStr did ++ ".html")))
  match dl with
  | (td, .error e) => prependCP td (cp_except env st wf did e ts)
  | (td, .ok content) =>
    let tables := extract_tables_from_content content
    let results : PyVal := .pdict
      [("document_id", did), ("brd_workflow_id", wf),
       ("timestamp", .pstr (ts ++ "Z")), ("tables", tables),
       ("title", cpTitle m), ("tables_count", pyLen tables)]
    let c := cp_create_function_execution did wf .completed
      "Successfully processed BRD content" "Content Processor Function"
      [("environment", .pstr env.environment), ("processing_results", results)] ts
    match cp_firestore_upsert env.setOk st env.collection c with
    | (tc, st2, .error e) => prependCP (td ++ tc) (cp_except env st2 wf did e ts)
    | (tc, st2, .ok _) =>
      let rm := CPMsg.init wf did results (.pbool true) ts
      if env.pubOk then
        ⟨td ++ tc ++ [Ev.publish rm.to_dict], st2, .ok "OK"⟩
      else prependCP (td ++ tc) (cp_except env st2 wf did pubFailMsg ts)

/-- One invocation of the `content_processor` cloud function (main.py lines
121 to 280): parse the inbound message, upsert IN_PROGRESS, run the body;
any exception reaches the except handler, which upserts FAILED and
re-raises. -/
def content_processor_run (env : CPEnv) (st : FsStore) (objs : ObjStore)
    (event : Option CPEvent) (ts : String) : CPResult :=
  let q := cp_parse env event ts
  let wf := q.1
  let did := q.2.1
  let ip := cpIpDoc env did wf ts
  match cp_firestore_upsert env.setOk st env.collection ip with
  | (t0, st1, .error e) => prependCP t0 (cp_except env st1 wf did e ts)
  | (t0, st1, .ok _) => prependCP t0 (cp_try env st1 objs wf did q.2.2.1 q.2.2.2 ts)

/-- Names bound at module top level by
`asset_indexer/common/firestore_utils.py`: every line of that file starts
with a comment marker, so the module defines no names. -/
def ai_firestore_utils_names : List String := []

/-- The names `asset_indexer/main.py` imports from
`.common.firestore_utils` at module load time (line 24). -/
def ai_main_firestore_imports : List String := ["firestore_upsert"]

/-- Python from-import at module load: succeeds only when every requested
name is bound in the module, and otherwise raises an ImportError, aborting
the module load. -/
def fromImport (moduleNames requested : List String) : Except String Unit :=
  if requested.all (fun n => moduleNames.contains n) then .ok ()
  else .error "ImportError"

/-! ## Lemmas about dictionaries and the Firestore merge -/

theorem dget_append (a b : PyDict) (k : String) :
    dget (a ++ b) k =
      match dget a k with
      | some v => some v
      | none => dget b k := by
  induction a with
  | nil => simp [dget]
  | cons hd tl ih =>
    obtain ⟨k1, v1⟩ := hd
    by_cases h : k1 = k <;> simp [dget, h, ih]

theorem dget_setKey (d : PyDict) (k : String) (v : PyVal) (k' : String) :
    dget (setKey d k v) k' = if k = k' then some v else dget d k' := by
  induction d with
  | nil => by_cases h : k = k' <;> simp [setKey, dget, h]
  | cons hd tl ih =>
    obtain ⟨k1, v1⟩ := hd
    by_cases h1 : k1 = k
    · subst h1
      by_cases h2 : k1 = k' <;> simp [setKey, dget, h2]
    · by_cases h2 : k1 = k'
      · subst h2
        have hne : ¬k = k1 := fun hh => h1 hh.symm
        simp [setKey, dget, h1, hne]
      · simp [setKey, dget, h1, h2, ih]

theorem dget_eq_none (d : PyDict) (k : String) (h : k ∉ d.map Prod.fst) :
    dget d k = none := by
  induction d with
  | nil => simp [dget]
  | cons hd tl ih =>
    obtain ⟨k1, v1⟩ := hd
    simp only [List.map_cons, List.mem_cons] at h
    push_neg at h
    simp [dget, Ne.symm h.1, ih h.2]

theorem dget_mem_nodup (d : PyDict) (k : String) (v : PyVal)
    (hm : (k, v) ∈ d) (hn : (d.map Prod.fst).Nodup) : dget d k = some v := by
  induction d with
  | nil => simp at hm
  | cons hd tl ih =>
    obtain ⟨k1, v1⟩ := hd
    simp only [List.map_cons, List.nodup_cons] at hn
    rcases List.mem_cons.mp hm with heq | hmem
    · injection heq with hk hv
      subst hk
      subst hv
      simp [dget]
    · have hk1 : k1 ≠ k := by
        rintro rfl
        exact hn.1 (List.mem_map.mpr ⟨(k1, v), hmem, rfl⟩)
      simp [dget, hk1, ih hmem hn.2]

theorem mergeVal_of_not_dict (a v : PyVal) (h : v.isDict = false) :
    mergeVal a v = v := by
  cases a <;> cases v <;> simp_all [mergeVal, PyVal.isDict]

theorem dget_mergeDict (o n : PyDict) (k : String)
    (hn : (n.map Prod.fst).Nodup) :
    dget (mergeDict o n) k =
      match dget n k with
      | some nv =>
        some (match dget o k with
              | some ov => mergeVal ov nv
              | none => nv)
      | none => dget o k := by
  induction n generalizing o with
  | nil => simp [mergeDict, dget]
  | cons hd tl ih =>
    obtain ⟨k1, v1⟩ := hd
    simp only [List.map_cons, List.nodup_cons] at hn
    rw [show mergeDict o ((k1, v1) :: tl) =
          mergeDict
            (match dget o k1 with
              | some ov => setKey o k1 (mergeVal ov v1)
              | none => o ++ [(k1, v1)]) tl from rfl]
    rw [ih _ hn.2]
    by_cases hk : k1 = k
    · subst hk
      have htl : dget tl k1 = none :=
        dget_eq_none _ _ (by simpa using hn.1)
      rw [htl]
      cases ho : dget o k1 with
      | none => simp [dget_append, ho, dget]
      | some ov => simp [dget_setKey, ho, dget]
    · have hhd : dget ((k1, v1) :: tl) k = dget tl k := by simp [dget, hk]
      rw [hhd]
      have ho1 : dget (match dget o k1 with
            | some ov => setKey o k1 (mergeVal ov v1)
            | none => o ++ [(k1, v1)]) k = dget o k := by
        cases ho : dget o k1 with
        | none =>
          rw [dget_append]
          cases hok : dget o k with
          | none => simp [dget, hk]
          | some w => simp
        | some ov => simp [dget_setKey, hk]
      rw [ho1]

/-! ## Lemmas about the status-record store -/

theorem storeGet_storeSet_self (st : FsStore) (coll : String) (id : PyVal) (d : PyDict) :
    storeGet (storeSet st coll id d) coll id = some d := by
  induction st with
  | nil => simp [storeSet, storeGet]
  | cons hd tl ih =>
    obtain ⟨key, d'⟩ := hd
    by_cases h : key = (coll, id) <;> simp [storeSet, storeGet, h, ih]

theorem storeGet_storeSet_other (st : FsStore) (coll : String) (id : PyVal)
    (d : PyDict) (coll' : String) (id' : PyVal) (h : (coll', id') ≠ (coll, id)) :
    storeGet (storeSet st coll id d) coll' id' = storeGet st coll' id' := by
  have h' : (coll, id) ≠ (coll', id') := fun hh => h hh.symm
  induction st with
  | nil => simp [storeSet, storeGet, h']
  | cons hd tl ih =>
    obtain ⟨key, d'⟩ := hd
    by_cases hk : key = (coll, id)
    · subst hk
      simp [storeSet, storeGet, h']
    · simp [storeSet, storeGet, hk, ih]

theorem storeGet_append (a b : FsStore) (coll : String) (id : PyVal) :
    storeGet (a ++ b) coll id =
      match storeGet a coll id with
      | some d => some d
      | none => storeGet b coll id := by
  induction a with
  | nil => simp [storeGet]
  | cons hd tl ih =>
    obtain ⟨key, d⟩ := hd
    by_cases h : key = (coll, id) <;> simp [storeGet, h, ih]

theorem storeGet_fsSetMerge_self (st : FsStore) (coll : String) (id : PyVal) (d : PyDict) :
    storeGet (fsSetMerge st coll id d) coll id =
      some (match storeGet st coll id with
            | some o => mergeDict o d
            | none => d) := by
  unfold fsSetMerge
  cases h : storeGet st coll id with
  | none => rw [storeGet_append, h]; simp [storeGet]
  | some o => simp [storeGet_storeSet_self]

theorem storeGet_fsSetMerge_other (st : FsStore) (coll : String) (id : PyVal)
    (d : PyDict) (coll' : String) (id' : PyVal) (h : (coll', id') ≠ (coll, id)) :
    storeGet (fsSetMerge st coll id d) coll' id' = storeGet st coll' id' := by
  have h' : (coll, id) ≠ (coll', id') := fun hh => h hh.symm
  unfold fsSetMerge
  cases hg : storeGet st coll id with
  | none =>
    rw [storeGet_append]
    cases hg' : storeGet st coll' id' with
    | none => simp [storeGet, h']
    | some o => simp
  | some o => rw [storeGet_storeSet_other _ _ _ _ _ _ h]

/-! ## Lemmas about status records written with a merge upsert -/

theorem dget_mergeDict_some (o n : PyDict) (k : String) (nv : PyVal)
    (hn : (n.map Prod.fst).Nodup) (h : dget n k = some nv) :
    dget (mergeDict o n) k =
      some (match dget o k with
            | some ov => mergeVal ov nv
            | none => nv) := by
  rw [dget_mergeDict o n k hn, h]

theorem dget_mergeDict_none (o n : PyDict) (k : String)
    (hn : (n.map Prod.fst).Nodup) (h : dget n k = none) :
    dget (mergeDict o n) k = dget o k := by
  rw [dget_mergeDict o n k hn, h]

theorem dget_mergeDict_some_leaf (o n : PyDict) (k : String) (nv : PyVal)
    (hn : (n.map Prod.fst).Nodup) (h : dget n k = some nv)
    (hleaf : nv.isDict = false) :
    dget (mergeDict o n) k = some nv := by
  rw [dget_mergeDict_some o n k nv hn h]
  cases ho : dget o k <;> simp [mergeVal_of_not_dict _ _ hleaf]

theorem storeGet_fsSetMerge_self_none (st : FsStore) (coll : String) (id : PyVal)
    (d : PyDict) (h : storeGet st coll id = none) :
    storeGet (fsSetMerge st coll id d) coll id = some d := by
  rw [storeGet_fsSetMerge_self, h]

theorem storeGet_fsSetMerge_self_some (st : FsStore) (coll : String) (id : PyVal)
    (d o : PyDict) (h : storeGet st coll id = some o) :
    storeGet (fsSetMerge st coll id d) coll id = some (mergeDict o d) := by
  rw [storeGet_fsSetMerge_self, h]

theorem fdOfRecord_item_pdict (r it : PyDict) (fd : PyDict)
    (h : dget r "item" = some (.pdict it))
    (h2 : dget it "function_data" = some (.pdict fd)) :
    fdOfRecord r = some fd := by
  unfold fdOfRecord
  rw [h]
  show (match dget it "function_data" with
        | some (.pdict fd) => some fd
        | _ => none) = some fd
  rw [h2]

theorem fdOfRecord_item_none (r : PyDict) (h : dget r "item" = none) :
    fdOfRecord r = none := by
  unfold fdOfRecord
  rw [h]

theorem fdOfRecord_item_not_dict (r : PyDict) (v : PyVal)
    (h : dget r "item" = some v) (hv : v.isDict = false) :
    fdOfRecord r = none := by
  unfold fdOfRecord
  rw [h]
  cases v with
  | pdict dd => simp [PyVal.isDict] at hv
  | pnone => rfl
  | pbool b => rfl
  | pint n => rfl
  | pstr s => rfl
  | plist xs => rfl

theorem fdOfRecord_fn_none (r it : PyDict)
    (h : dget r "item" = some (.pdict it))
    (h2 : dget it "function_data" = none) :
    fdOfRecord r = none := by
  unfold fdOfRecord
  rw [h]
  show (match dget it "function_data" with
        | some (.pdict fd) => some fd
        | _ => none) = none
  rw [h2]

theorem fdOfRecord_fn_not_dict (r it : PyDict) (v : PyVal)
    (h : dget r "item" = some (.pdict it))
    (h2 : dget it "function_data" = some v) (hv : v.isDict = false) :
    fdOfRecord r = none := by
  unfold fdOfRecord
  rw [h]
  show (match dget it "function_data" with
        | some (.pdict fd) => some fd
        | _ => none) = none
  rw [h2]
  cases v with
  | pdict dd => simp [PyVal.isDict] at hv
  | pnone => rfl
  | pbool b => rfl
  | pint n => rfl
  | pstr s => rfl
  | plist xs => rfl

theorem fdField_of_fd (st : FsStore) (coll : String) (id : PyVal)
    (r fd : PyDict) (k : String)
    (h : storeGet st coll id = some r) (h2 : fdOfRecord r = some fd) :
    fdField st coll id k = dget fd k := by
  unfold fdField
  rw [h]
  show (match fdOfRecord r with
        | some fd => dget fd k
        | none => none) = dget fd k
  rw [h2]

theorem fdField_of_fdOfRecord_none (st : FsStore) (coll : String) (id : PyVal)
    (r : PyDict) (k : String)
    (h : storeGet st coll id = some r) (h2 : fdOfRecord r = none) :
    fdField st coll id k = none := by
  unfold fdField
  rw [h]
  show (match fdOfRecord r with
        | some fd => dget fd k
        | none => none) = none
  rw [h2]

theorem fdField_of_storeGet_none (st : FsStore) (coll : String) (id : PyVal)
    (k : String) (h : storeGet st coll id = none) :
    fdField st coll id k = none := by
  unfold fdField
  rw [h]

theorem topField_of_record (st : FsStore) (coll : String) (id : PyVal)
    (r : PyDict) (k : String) (h : storeGet st coll id = some r) :
    topField st coll id k = dget r k := by
  unfold topField
  rw [h]

theorem fdOfRecord_mergeDict (o d fd : PyDict)
    (hd : (d.map Prod.fst).Nodup)
    (hshape : dget d "item" = some (.pdict [("function_data", .pdict fd)])) :
    fdOfRecord (mergeDict o d) =
      some (match fdOfRecord o with
            | some ofd => mergeDict ofd fd
            | none => fd) := by
  have hbase := dget_mergeDict_some o d "item" _ hd hshape
  cases ho : dget o "item" with
  | none =>
    rw [ho] at hbase
    have hitem : dget (mergeDict o d) "item" =
        some (.pdict [("function_data", .pdict fd)]) := hbase
    rw [fdOfRecord_item_pdict _ _ fd hitem rfl, fdOfRecord_item_none o ho]
  | some ov =>
    rw [ho] at hbase
    cases ov with
    | pdict oi =>
      have hitem : dget (mergeDict o d) "item" =
          some (.pdict (mergeDict oi [("function_data", .pdict fd)])) := hbase
      have hfnbase := dget_mergeDict_some oi [("function_data", .pdict fd)]
        "function_data" (.pdict fd) (by simp) rfl
      cases ho2 : dget oi "function_data" with
      | none =>
        rw [ho2] at hfnbase
        have hfn : dget (mergeDict oi [("function_data", .pdict fd)]) "function_data" =
            some (.pdict fd) := hfnbase
        rw [fdOfRecord_item_pdict _ _ fd hitem hfn, fdOfRecord_fn_none o oi ho ho2]
      | some ov2 =>
        rw [ho2] at hfnbase
        cases ov2 with
        | pdict ofd =>
          have hfn : dget (mergeDict oi [("function_data", .pdict fd)]) "function_data" =
              some (.pdict (mergeDict ofd fd)) := hfnbase
          rw [fdOfRecord_item_pdict _ _ (mergeDict ofd fd) hitem hfn,
            fdOfRecord_item_pdict o oi ofd ho ho2]
        | pnone =>
          have hfn : dget (mergeDict oi [("function_data", .pdict fd)]) "function_data" =
              some (.pdict fd) := hfnbase
          rw [fdOfRecord_item_pdict _ _ fd hitem hfn,
            fdOfRecord_fn_not_dict o oi _ ho ho2 rfl]
        | pbool b =>
          have hfn : dget (mergeDict oi [("function_data", .pdict fd)]) "function_data" =
              some (.pdict fd) := hfnbase
          rw [fdOfRecord_item_pdict _ _ fd hitem hfn,
            fdOfRecord_fn_not_dict o oi _ ho ho2 rfl]
        | pint n' =>
          have hfn : dget (mergeDict oi [("function_data", .pdict fd)]) "function_data" =
              some (.pdict fd) := hfnbase
          rw [fdOfRecord_item_pdict _ _ fd hitem hfn,
            fdOfRecord_fn_not_dict o oi _ ho ho2 rfl]
        | pstr s =>
          have hfn : dget (mergeDict oi [("function_data", .pdict fd)]) "function_data" =
              some (.pdict fd) := hfnbase
          rw [fdOfRecord_item_pdict _ _ fd hitem hfn,
            fdOfRecord_fn_not_dict o oi _ ho ho2 rfl]
        | plist xs =>
          have hfn : dget (mergeDict oi [("function_data", .pdict fd)]) "function_data" =
              some (.pdict fd) := hfnbase
          rw [fdOfRecord_item_pdict _ _ fd hitem hfn,
            fdOfRecord_fn_not_dict o oi _ ho ho2 rfl]
    | pnone =>
      have hitem : dget (mergeDict o d) "item" =
          some (.pdict [("function_data", .pdict fd)]) := hbase
      rw [fdOfRecord_item_pdict _ _ fd hitem rfl,
        fdOfRecord_item_not_dict o _ ho rfl]
    | pbool b =>
      have hitem : dget (mergeDict o d) "item" =
          some (.pdict [("function_data", .pdict fd)]) := hbase
      rw [fdOfRecord_item_pdict _ _ fd hitem rfl,
        fdOfRecord_item_not_dict o _ ho rfl]
    | pint n' =>
      have hitem : dget (mergeDict o d) "item" =
          some (.pdict [("function_data", .pdict fd)]) := hbase
      rw [fdOfRecord_item_pdict _ _ fd hitem rfl,
        fdOfRecord_item_not_dict o _ ho rfl]
    | pstr s =>
      have hitem : dget (mergeDict o d) "item" =
          some (.pdict [("function_data", .pdict fd)]) := hbase
      rw [fdOfRecord_item_pdict _ _ fd hitem rfl,
        fdOfRecord_item_not_dict o _ ho rfl]
    | plist xs =>
      have hitem : dget (mergeDict o d) "item" =
          some (.pdict [("function_data", .pdict fd)]) := hbase
      rw [fdOfRecord_item_pdict _ _ fd hitem rfl,
        fdOfRecord_item_not_dict o _ ho rfl]

theorem fdField_fsSetMerge_new (st : FsStore) (coll : String) (id : PyVal)
    (d fd : PyDict) (k : String) (v : PyVal)
    (hd : (d.map Prod.fst).Nodup)
    (hshape : dget d "item" = some (.pdict [("function_data", .pdict fd)]))
    (hfd : (fd.map Prod.fst).Nodup)
    (hv : dget fd k = some v) (hleaf : v.isDict = false) :
    fdField (fsSetMerge st coll id d) coll id k = some v := by
  cases h : storeGet st coll id with
  | none =>
    rw [fdField_of_fd _ _ _ d fd k (storeGet_fsSetMerge_self_none st coll id d h)
      (fdOfRecord_item_pdict d _ fd hshape rfl), hv]
  | some o =>
    have hrec := fdOfRecord_mergeDict o d fd hd hshape
    cases hof : fdOfRecord o with
    | none =>
      have hrec2 : fdOfRecord (mergeDict o d) = some fd := by rw [hrec, hof]
      rw [fdField_of_fd _ _ _ _ fd k (storeGet_fsSetMerge_self_some st coll id d o h) hrec2, hv]
    | some ofd =>
      have hrec2 : fdOfRecord (mergeDict o d) = some (mergeDict ofd fd) := by
        rw [hrec, hof]
      rw [fdField_of_fd _ _ _ _ (mergeDict ofd fd) k
        (storeGet_fsSetMerge_self_some st coll id d o h) hrec2]
      exact dget_mergeDict_some_leaf ofd fd k v hfd hv hleaf

theorem fdField_fsSetMerge_absent (st : FsStore) (coll : String) (id : PyVal)
    (d fd : PyDict) (k : String)
    (hd : (d.map Prod.fst).Nodup)
    (hshape : dget d "item" = some (.pdict [("function_data", .pdict fd)]))
    (hfd : (fd.map Prod.fst).Nodup)
    (hnone : dget fd k = none) :
    fdField (fsSetMerge st coll id d) coll id k = fdField st coll id k := by
  cases h : storeGet st coll id with
  | none =>
    rw [fdField_of_fd _ _ _ d fd k (storeGet_fsSetMerge_self_none st coll id d h)
      (fdOfRecord_item_pdict d _ fd hshape rfl), hnone,
      fdField_of_storeGet_none st coll id k h]
  | some o =>
    have hrec := fdOfRecord_mergeDict o d fd hd hshape
    cases hof : fdOfRecord o with
    | none =>
      have hrec2 : fdOfRecord (mergeDict o d) = some fd := by rw [hrec, hof]
      rw [fdField_of_fd _ _ _ _ fd k (storeGet_fsSetMerge_self_some st coll id d o h) hrec2, hnone,
        fdField_of_fdOfRecord_none st coll id o k h hof]
    | some ofd =>
      have hrec2 : fdOfRecord (mergeDict o d) = some (mergeDict ofd fd) := by
        rw [hrec, hof]
      rw [fdField_of_fd _ _ _ _ (mergeDict ofd fd) k
        (storeGet_fsSetMerge_self_some st coll id d o h) hrec2,
        dget_mergeDict_none ofd fd k hfd hnone,
        fdField_of_fd st coll id o ofd k h hof]

theorem fdField_fsSetMerge_other (st : FsStore) (coll : String) (id : PyVal)
    (d : PyDict) (coll' : String) (id' : PyVal) (k : String)
    (h : (coll', id') ≠ (coll, id)) :
    fdField (fsSetMerge st coll id d) coll' id' k = fdField st coll' id' k := by
  unfold fdField
  rw [storeGet_fsSetMerge_other _ _ _ _ _ _ h]

theorem topField_fsSetMerge_new (st : FsStore) (coll : String) (id : PyVal)
    (d : PyDict) (k : String) (v : PyVal)
    (hd : (d.map Prod.fst).Nodup)
    (hv : dget d k = some v) (hleaf : v.isDict = false) :
    topField (fsSetMerge st coll id d) coll id k = some v := by
  cases h : storeGet st coll id with
  | none =>
    rw [topField_of_record _ _ _ d k (storeGet_fsSetMerge_self_none st coll id d h), hv]
  | some o =>
    rw [topField_of_record _ _ _ (mergeDict o d) k
      (storeGet_fsSetMerge_self_some st coll id d o h)]
    exact dget_mergeDict_some_leaf o d k v hd hv hleaf

theorem storeStatus_fsSetMerge_new (st : FsStore) (coll : String) (id : PyVal)
    (d fd : PyDict) (s : String)
    (hd : (d.map Prod.fst).Nodup)
    (hshape : dget d "item" = some (.pdict [("function_data", .pdict fd)]))
    (hfd : (fd.map Prod.fst).Nodup)
    (hv : dget fd "status" = some (.pstr s)) :
    storeStatus (fsSetMerge st coll id d) coll id = some s := by
  unfold storeStatus
  rw [fdField_fsSetMerge_new st coll id d fd "status" (.pstr s) hd hshape hfd hv rfl]

theorem storeStatus_fsSetMerge_other (st : FsStore) (coll : String) (id : PyVal)
    (d : PyDict) (coll' : String) (id' : PyVal) (h : (coll', id') ≠ (coll, id)) :
    storeStatus (fsSetMerge st coll id d) coll' id' = storeStatus st coll' id' := by
  unfold storeStatus
  rw [fdField_fsSetMerge_other _ _ _ _ _ _ _ h]

theorem storeStatus_of_fdField (st : FsStore) (coll : String) (id : PyVal)
    (s : String) (h : fdField st coll id "status" = some (.pstr s)) :
    storeStatus st coll id = some s := by
  unfold storeStatus
  rw [h]

/-! ## Shape facts about the status documents the stage bodies build -/

theorem doc_to_dict_keys (doc : Document) :
    doc.to_dict.map Prod.fst =
      ["id", "item_type", "brd_workflow_id", "description",
       "description_heading", "item"] := rfl

theorem doc_to_dict_keys_nodup (doc : Document) :
    (doc.to_dict.map Prod.fst).Nodup := by
  rw [doc_to_dict_keys]
  decide

theorem aiIpDoc_shape (env : AIEnv) (brd_id ts : String) :
    dget (aiIpDoc env brd_id ts).to_dict "item" =
      some (.pdict [("function_data",
        .pdict (aiBaseFd ts "Asset Indexer Function" "Processing BRD document"
          .in_progress env.environment))]) := rfl

theorem aiCompletedDoc_shape (env : AIEnv) (brd_id ts : String) :
    dget (aiCompletedDoc env brd_id ts).to_dict "item" =
      some (.pdict [("function_data",
        .pdict (aiBaseFd ts "Asset Indexer Function"
          "Successfully processed BRD document" .completed env.environment))]) := rfl

theorem aiBaseFd_keys (ts dh desc : String) (status : FunctionStatus)
    (envr : String) :
    (aiBaseFd ts dh desc status envr).map Prod.fst =
      ["timestamp_created", "timestamp_updated", "description_heading",
       "description", "status", "environment"] := rfl

theorem aiBaseFd_nodup (ts dh desc : String) (status : FunctionStatus)
    (envr : String) : ((aiBaseFd ts dh desc status envr).map Prod.fst).Nodup := by
  rw [aiBaseFd_keys]
  decide

theorem aiFailedDoc_shape (env : AIEnv) (srcN dest brd_id ts e : String) :
    dget (aiFailedDoc env srcN dest brd_id ts e).to_dict "item" =
      some (.pdict [("function_data",
        .pdict (dictUpdate
          (aiBaseFd ts "Asset Indexer Function"
            ("Failed to process BRD document: " ++ e) .failed env.environment)
          [("source", .pstr srcN), ("dest", .pstr dest), ("error", .pstr e)]))]) := rfl

theorem aiFailedFd_keys (ts dh desc : String) (status : FunctionStatus)
    (envr srcN dest e : String) :
    ((dictUpdate (aiBaseFd ts dh desc status envr)
      [("source", .pstr srcN), ("dest", .pstr dest), ("error", .pstr e)]).map Prod.fst) =
      ["timestamp_created", "timestamp_updated", "description_heading",
       "description", "status", "environment", "source", "dest", "error"] := rfl

theorem aiFailedFd_nodup (ts dh desc : String) (status : FunctionStatus)
    (envr srcN dest e : String) :
    ((dictUpdate (aiBaseFd ts dh desc status envr)
      [("source", .pstr srcN), ("dest", .pstr dest), ("error", .pstr e)]).map Prod.fst).Nodup := by
  rw [aiFailedFd_keys]
  decide

theorem cpIpDoc_shape (env : CPEnv) (did wf : PyVal) (ts : String) :
    dget (cpIpDoc env did wf ts).to_dict "item" =
      some (.pdict [("function_data",
        .pdict (cpBaseFd ts "Content Processor Function"
          "Processing BRD document content" .in_progress ++
          [("environment", .pstr env.environment)]))]) := rfl

theorem cpIpFd_nodup (env : CPEnv) (ts : String) :
    ((cpBaseFd ts "Content Processor Function" "Processing BRD document content"
      .in_progress ++ [("environment", PyVal.pstr env.environment)]).map Prod.fst).Nodup := by
  rw [show (cpBaseFd ts "Content Processor Function"
      "Processing BRD document content" .in_progress ++
      [("environment", PyVal.pstr env.environment)]).map Prod.fst =
      ["timestamp_created", "timestamp_updated", "description_heading",
       "description", "status", "environment"] from rfl]
  decide

theorem cpFailedDoc_shape (env : CPEnv) (fid fwf : PyVal) (e ts : String) :
    dget (cpFailedDoc env fid fwf e ts).to_dict "item" =
      some (.pdict [("function_data",
        .pdict (cpBaseFd ts "Content Processor Function"
          ("Failed to process BRD content: " ++ e) .failed ++
          [("environment", .pstr env.environment), ("error", .pstr e)]))]) := rfl

theorem cpFailedFd_nodup (env : CPEnv) (e ts : String) :
    ((cpBaseFd ts "Content Processor Function"
      ("Failed to process BRD content: " ++ e) .failed ++
      [("environment", PyVal.pstr env.environment), ("error", PyVal.pstr e)]).map Prod.fst).Nodup := by
  rw [show (cpBaseFd ts "Content Processor Function"
      ("Failed to process BRD content: " ++ e) .failed ++
      [("environment", PyVal.pstr env.environment), ("error", PyVal.pstr e)]).map Prod.fst =
      ["timestamp_created", "timestamp_updated", "description_heading",
       "description", "status", "environment", "error"] from rfl]
  decide

/-! ## Trace predicates -/

theorem checkWBE_of_seen (t : List Ev) : checkWBE true t = true := by
  induction t with
  | nil => rfl
  | cons e rest ih => simp [checkWBE, ih]

/-! ## Characterisation of content_processor invocations -/

theorem cp_run_setOk (env : CPEnv) (st : FsStore) (objs : ObjStore)
    (event : Option CPEvent) (ts : String) (wf did fid fwf : PyVal)
    (h : env.setOk = true)
    (hwf : wf = (cp_parse env event ts).1)
    (hdid : did = (cp_parse env event ts).2.1)
    (hfid : fid = (if pyTruthy did then did else .pstr "unknown_document_id"))
    (hfwf : fwf = (if pyTruthy wf then wf else .pstr "unknown_workflow_id")) :
    content_processor_run env st objs event ts =
      ⟨[Ev.fsSet env.collection did (cpIpDoc env did wf ts).to_dict,
        Ev.fsSet env.collection fid (cpFailedDoc env fid fwf sleepNameError ts).to_dict],
       fsSetMerge
         (fsSetMerge st env.collection did (cpIpDoc env did wf ts).to_dict)
         env.collection fid (cpFailedDoc env fid fwf sleepNameError ts).to_dict,
       .error sleepNameError⟩ := by
  subst hfid
  subst hfwf
  subst hwf
  subst hdid
  obtain ⟨sb, coll, ilt, envr, setOk, pubOk⟩ := env
  dsimp only at h
  subst h
  rfl

theorem cp_run_setFail (env : CPEnv) (st : FsStore) (objs : ObjStore)
    (event : Option CPEvent) (ts : String) (h : env.setOk = false) :
    content_processor_run env st objs event ts = ⟨[], st, .error fsSetFailMsg⟩ := by
  obtain ⟨sb, coll, ilt, envr, setOk, pubOk⟩ := env
  dsimp only at h
  subst h
  rfl

/-! ## Characterisation of asset_indexer invocations -/

theorem ai_run_store_down (env : AIEnv) (st : FsStore) (objs : ObjStore)
    (event : Option (String × String)) (brd_id ts : String)
    (h : env.fsOk = false) :
    asset_indexer_run env st objs event brd_id ts =
      ⟨[], st, objs, .error firestoreDownMsg⟩ := by
  obtain ⟨sb, db, coll, envr, emu, fsOk, pubOk⟩ := env
  dsimp only at h
  subst h
  rfl

theorem ai_run_src_missing (env : AIEnv) (st : FsStore) (objs : ObjStore)
    (event : Option (String × String)) (brd_id ts : String)
    (srcB srcN dest : String)
    (hfs : env.fsOk = true)
    (hb : srcB = (aiSrc env event).1) (hn : srcN = (aiSrc env event).2)
    (hd : dest = brd_id ++ splitextExt srcN)
    (hsrc : objGet objs srcB srcN = none) :
    asset_indexer_run env st objs event brd_id ts =
      ⟨[Ev.fsSet env.collection (.pstr brd_id) (aiIpDoc env brd_id ts).to_dict,
        Ev.fsSet env.collection (.pstr brd_id)
          (aiFailedDoc env srcN dest brd_id ts (notFoundMsg srcB srcN)).to_dict],
       fsSetMerge
         (fsSetMerge st env.collection (.pstr brd_id) (aiIpDoc env brd_id ts).to_dict)
         env.collection (.pstr brd_id)
         (aiFailedDoc env srcN dest brd_id ts (notFoundMsg srcB srcN)).to_dict,
       objs, .error (notFoundMsg srcB srcN)⟩ := by
  subst hd
  subst hb
  subst hn
  obtain ⟨sb, db, coll, envr, emu, fsOk, pubOk⟩ := env
  dsimp only at hfs hsrc
  subst hfs
  simp only [asset_indexer_run, ai_firestore_upsert, ai_try, ai_except,
    prependAI, hsrc]
  rfl

theorem ai_run_success (env : AIEnv) (st : FsStore) (objs : ObjStore)
    (event : Option (String × String)) (brd_id ts : String)
    (srcB srcN dest : String) (bd : BlobData)
    (hfs : env.fsOk = true) (hpub : env.pubOk = true)
    (hb : srcB = (aiSrc env event).1) (hn : srcN = (aiSrc env event).2)
    (hd : dest = brd_id ++ splitextExt srcN)
    (hsrc : objGet objs srcB srcN = some bd) :
    asset_indexer_run env st objs event brd_id ts =
      ⟨Ev.fsSet env.collection (.pstr brd_id) (aiIpDoc env brd_id ts).to_dict ::
        (if env.storage_emulator then
          [Ev.download srcB srcN, Ev.upload env.dest_bucket dest]
         else
          [Ev.copy srcB srcN env.dest_bucket dest, Ev.patch env.dest_bucket dest]) ++
        [Ev.del srcB srcN,
         Ev.fsSet env.collection (.pstr brd_id) (aiCompletedDoc env brd_id ts).to_dict,
         Ev.publish (aiMsgDict brd_id)],
       fsSetMerge
         (fsSetMerge st env.collection (.pstr brd_id) (aiIpDoc env brd_id ts).to_dict)
         env.collection (.pstr brd_id) (aiCompletedDoc env brd_id ts).to_dict,
       objDel (objPut objs env.dest_bucket dest
         (if env.storage_emulator then ⟨bd.content, none⟩ else ⟨bd.content, some srcN⟩))
         srcB srcN,
       .ok ()⟩ := by
  subst hd
  subst hb
  subst hn
  obtain ⟨sb, db, coll, envr, emu, fsOk, pubOk⟩ := env
  dsimp only at hfs hpub hsrc ⊢
  subst hfs
  subst hpub
  simp only [asset_indexer_run, ai_firestore_upsert, ai_try, ai_except,
    prependAI, hsrc]
  cases emu <;> rfl

theorem ai_run_pub_fail (env : AIEnv) (st : FsStore) (objs : ObjStore)
    (event : Option (String × String)) (brd_id ts : String)
    (srcB srcN dest : String) (bd : BlobData)
    (hfs : env.fsOk = true) (hpub : env.pubOk = false)
    (hb : srcB = (aiSrc env event).1) (hn : srcN = (aiSrc env event).2)
    (hd : dest = brd_id ++ splitextExt srcN)
    (hsrc : objGet objs srcB srcN = some bd) :
    asset_indexer_run env st objs event brd_id ts =
      ⟨Ev.fsSet env.collection (.pstr brd_id) (aiIpDoc env brd_id ts).to_dict ::
        (if env.storage_emulator then
          [Ev.download srcB srcN, Ev.upload env.dest_bucket dest]
         else
          [Ev.copy srcB srcN env.dest_bucket dest, Ev.patch env.dest_bucket dest]) ++
        [Ev.del srcB srcN,
         Ev.fsSet env.collection (.pstr brd_id) (aiCompletedDoc env brd_id ts).to_dict,
         Ev.fsSet env.collection (.pstr brd_id)
           (aiFailedDoc env srcN dest brd_id ts pubFailMsg).to_dict],
       fsSetMerge
         (fsSetMerge
           (fsSetMerge st env.collection (.pstr brd_id) (aiIpDoc env brd_id ts).to_dict)
           env.collection (.pstr brd_id) (aiCompletedDoc env brd_id ts).to_dict)
         env.collection (.pstr brd_id)
         (aiFailedDoc env srcN dest brd_id ts pubFailMsg).to_dict,
       objDel (objPut objs env.dest_bucket dest
         (if env.storage_emulator then ⟨bd.content, none⟩ else ⟨bd.content, some srcN⟩))
         srcB srcN,
       .error pubFailMsg⟩ := by
  subst hd
  subst hb
  subst hn
  obtain ⟨sb, db, coll, envr, emu, fsOk, pubOk⟩ := env
  dsimp only at hfs hpub hsrc ⊢
  subst hfs
  subst hpub
  simp only [asset_indexer_run, ai_firestore_upsert, ai_try, ai_except,
    prependAI, hsrc]
  cases emu <;> rfl

/-! ## Derived facts about whole invocations -/

theorem objGet_objDel_self (o : ObjStore) (b n : String) :
    objGet (objDel o b n) b n = none := by
  induction o with
  | nil => rfl
  | cons hd tl ih =>
    obtain ⟨key, bd⟩ := hd
    by_cases h : key = (b, n) <;> simp [objDel, objGet, h, ih]

theorem collId_pstr_ne (coll : String) (w1 w2 : String) (hw : w1 ≠ w2) :
    ((coll, PyVal.pstr w1) : String × PyVal) ≠ (coll, PyVal.pstr w2) := by
  intro hh
  exact hw (PyVal.pstr.inj (Prod.ext_iff.mp hh).2)

theorem cp_parse_malformed (env : CPEnv) (e : CPEvent) (ts : String)
    (hlt : env.is_local_test = false)
    (hbad : e.typ = none ∨ e.dat = none ∨ e.dat = some ⟨some .garbage⟩) :
    cp_parse env (some e) ts =
      (.pstr "error_workflow_id", .pstr "error_document_id",
       CPMsg.init (.pstr "error_workflow_id") (.pstr "error_document_id")
         .pnone (.pbool false) ts,
       true) := by
  obtain ⟨typ, dat⟩ := e
  rcases hbad with h | h | h
  · dsimp only at h
    subst h
    simp [cp_parse, hlt]
  · dsimp only at h
    subst h
    cases typ <;> simp [cp_parse, hlt]
  · dsimp only at h
    subst h
    cases typ <;> simp [cp_parse, hlt, CPMsg.from_cloud_event]

theorem ai_statusSeq_cases (env : AIEnv) (st : FsStore) (objs : ObjStore)
    (event : Option (String × String)) (brd_id ts : String) :
    statusSeq (asset_indexer_run env st objs event brd_id ts).trace = [] ∨
    statusSeq (asset_indexer_run env st objs event brd_id ts).trace =
      ["in progress", "failed"] ∨
    statusSeq (asset_indexer_run env st objs event brd_id ts).trace =
      ["in progress", "completed"] ∨
    statusSeq (asset_indexer_run env st objs event brd_id ts).trace =
      ["in progress", "completed", "failed"] := by
  cases hfs : env.fsOk with
  | false =>
    left
    rw [ai_run_store_down env st objs event brd_id ts hfs]
    rfl
  | true =>
    cases hsrc : objGet objs (aiSrc env event).1 (aiSrc env event).2 with
    | none =>
      right; left
      rw [ai_run_src_missing env st objs event brd_id ts _ _ _ hfs rfl rfl rfl hsrc]
      rfl
    | some bd =>
      cases hpub : env.pubOk with
      | true =>
        right; right; left
        rw [ai_run_success env st objs event brd_id ts _ _ _ bd hfs hpub rfl rfl rfl hsrc]
        cases hemu : env.storage_emulator <;> rfl
      | false =>
        right; right; right
        rw [ai_run_pub_fail env st objs event brd_id ts _ _ _ bd hfs hpub rfl rfl rfl hsrc]
        cases hemu : env.storage_emulator <;> rfl

theorem cp_statusSeq_cases (env : CPEnv) (st : FsStore) (objs : ObjStore)
    (event : Option CPEvent) (ts : String) :
    statusSeq (content_processor_run env st objs event ts).trace = [] ∨
    statusSeq (content_processor_run env st objs event ts).trace =
      ["in progress", "failed"] := by
  cases hset : env.setOk with
  | false =>
    left
    rw [cp_run_setFail env st objs event ts hset]
    rfl
  | true =>
    right
    rw [cp_run_setOk env st objs event ts _ _ _ _ hset rfl rfl rfl rfl]
    rfl

theorem ai_checkWBE_all (env : AIEnv) (st : FsStore) (objs : ObjStore)
    (event : Option (String × String)) (brd_id ts : String) :
    checkWBE false (asset_indexer_run env st objs event brd_id ts).trace = true := by
  cases hfs : env.fsOk with
  | false =>
    rw [ai_run_store_down env st objs event brd_id ts hfs]
    rfl
  | true =>
    cases hsrc : objGet objs (aiSrc env event).1 (aiSrc env event).2 with
    | none =>
      rw [ai_run_src_missing env st objs event brd_id ts _ _ _ hfs rfl rfl rfl hsrc]
      rfl
    | some bd =>
      cases hpub : env.pubOk with
      | true =>
        rw [ai_run_success env st objs event brd_id ts _ _ _ bd hfs hpub rfl rfl rfl hsrc]
        exact checkWBE_of_seen _
      | false =>
        rw [ai_run_pub_fail env st objs event brd_id ts _ _ _ bd hfs hpub rfl rfl rfl hsrc]
        exact checkWBE_of_seen _

theorem cp_checkWBE_all (env : CPEnv) (st : FsStore) (objs : ObjStore)
    (event : Option CPEvent) (ts : String) :
    checkWBE false (content_processor_run env st objs event ts).trace = true := by
  cases hset : env.setOk with
  | false =>
    rw [cp_run_setFail env st objs event ts hset]
    rfl
  | true =>
    rw [cp_run_setOk env st objs event ts _ _ _ _ hset rfl rfl rfl rfl]
    rfl

/-! ## The claims -/

/-- C10: loading the ingest stage module always fails.
`asset_indexer/common/firestore_utils.py` consists entirely of commented-out
lines and so binds no names, while `asset_indexer/main.py` imports
`firestore_upsert` from it at module load time; hence every attempt
to load the asset_indexer module raises an ImportError and the ingest
function can never be invoked. -/
theorem asset_indexer_module_import_always_fails :
    ai_firestore_utils_names = [] ∧
    fromImport ai_firestore_utils_names ai_main_firestore_imports =
      .error "ImportError" :=
  ⟨rfl, rfl⟩

/-- C9: every call to firestore_upsert of content_processor raises and never
returns the document id: with a successful `set`, the store is updated (the
write and read-back happen first) but the unbound name `sleep` raises a
NameError that the except clause re-raises; with a failing `set`, the
transport error is re-raised.  In both cases the outcome is an error, so the
normal return of `doc_ref.id` is unreachable for every input. -/
theorem cp_firestore_upsert_always_raises :
    ∀ (setOk : Bool) (st : FsStore) (coll : String) (doc : Document),
      ((cp_firestore_upsert setOk st coll doc).2.2 =
        .error (if setOk then sleepNameError else fsSetFailMsg)) ∧
      ((cp_firestore_upsert true st coll doc).2.1 =
        fsSetMerge st coll doc.id doc.to_dict) := by
  intro setOk st coll doc
  cases setOk <;> exact ⟨rfl, rfl⟩

/-- C8 counterexample: the stage status enumeration `FunctionStatus` has
exactly three members and none of them is PENDING, so the claimed
four-member enumeration {PENDING, IN_PROGRESS, COMPLETED, FAILED} does not
match the code. -/
theorem functionStatus_has_no_pending :
    Fintype.card FunctionStatus = 3 ∧
    FunctionStatus.in_progress.value ≠ "pending" ∧
    FunctionStatus.completed.value ≠ "pending" ∧
    FunctionStatus.failed.value ≠ "pending" ∧
    FunctionStatus.in_progress.value ≠ "PENDING" ∧
    FunctionStatus.completed.value ≠ "PENDING" ∧
    FunctionStatus.failed.value ≠ "PENDING" := by
  decide

/-- C8 amended: the stage status type is the enumeration of exactly the
three values IN_PROGRESS, COMPLETED and FAILED (there is no PENDING member),
and every stage invocation begins its bookkeeping by upserting an
IN_PROGRESS record before invoking the domain logic: whenever an invocation
writes any status record at all, the first one written is IN_PROGRESS. -/
theorem status_enum_and_first_write_in_progress :
    (Fintype.card FunctionStatus = 3 ∧
     FunctionStatus.in_progress.value = "in progress" ∧
     FunctionStatus.completed.value = "completed" ∧
     FunctionStatus.failed.value = "failed") ∧
    (∀ (env : AIEnv) (st : FsStore) (objs : ObjStore)
       (event : Option (String × String)) (brd_id ts : String),
      statusSeq (asset_indexer_run env st objs event brd_id ts).trace = [] ∨
      (statusSeq (asset_indexer_run env st objs event brd_id ts).trace).head? =
        some "in progress") ∧
    (∀ (env : CPEnv) (st : FsStore) (objs : ObjStore)
       (event : Option CPEvent) (ts : String),
      statusSeq (content_processor_run env st objs event ts).trace = [] ∨
      (statusSeq (content_processor_run env st objs event ts).trace).head? =
        some "in progress") := by
  refine ⟨⟨by decide, rfl, rfl, rfl⟩, ?_, ?_⟩
  · intro env st objs event brd_id ts
    rcases ai_statusSeq_cases env st objs event brd_id ts with h | h | h | h
    · exact Or.inl h
    · exact Or.inr (by rw [h]; rfl)
    · exact Or.inr (by rw [h]; rfl)
    · exact Or.inr (by rw [h]; rfl)
  · intro env st objs event ts
    rcases cp_statusSeq_cases env st objs event ts with h | h
    · exact Or.inl h
    · exact Or.inr (by rw [h]; rfl)

/-- C7: round-trip identity of the stage hand-off message identifiers.  For
both PubSubMessage classes, if a message has non-empty string workflow and
document ids, then `from_dict` of its `to_dict` yields a message with the
same workflow id and document id. -/
theorem pubsub_message_roundtrip_ids :
    (∀ (m : CPMsg) (ts : String) (w d : String),
      m.brd_workflow_id = .pstr w → w ≠ "" →
      m.document_id = .pstr d → d ≠ "" →
      (CPMsg.from_dict m.to_dict ts).brd_workflow_id = m.brd_workflow_id ∧
      (CPMsg.from_dict m.to_dict ts).document_id = m.document_id) ∧
    (∀ (m : AIMsg) (w d : String),
      m.brd_workflow_id = .pstr w → w ≠ "" →
      m.document_id = .pstr d → d ≠ "" →
      (AIMsg.from_dict m.to_dict).brd_workflow_id = m.brd_workflow_id ∧
      (AIMsg.from_dict m.to_dict).document_id = m.document_id) := by
  constructor
  · intro m ts w d hw hwne hd hdne
    constructor
    · simp [CPMsg.from_dict, CPMsg.to_dict, CPMsg.init, dgetD, dget_append, dget]
    · simp [CPMsg.from_dict, CPMsg.to_dict, CPMsg.init, dgetD, dget_append, dget]
  · intro m w d hw hwne hd hdne
    have htr : pyTruthy m.document_id = true := by
      rw [hd]
      simp [pyTruthy, hdne]
    constructor
    · simp [AIMsg.from_dict, AIMsg.to_dict, AIMsg.init, dgetD, dget_append, dget]
    · simp [AIMsg.from_dict, AIMsg.to_dict, AIMsg.init, dgetD, dget_append, dget, htr]

/-- Witness for C7 at a concrete message for each class. -/
theorem pubsub_message_roundtrip_ids_witness :
    ((CPMsg.from_dict (CPMsg.mk (.pstr "wf1") (.pstr "doc1") (.pdict []) (.pbool false) "T").to_dict
        "T2").brd_workflow_id =
      (CPMsg.mk (.pstr "wf1") (.pstr "doc1") (.pdict []) (.pbool false) "T").brd_workflow_id ∧
     (CPMsg.from_dict (CPMsg.mk (.pstr "wf1") (.pstr "doc1") (.pdict []) (.pbool false) "T").to_dict
        "T2").document_id =
      (CPMsg.mk (.pstr "wf1") (.pstr "doc1") (.pdict []) (.pbool false) "T").document_id) ∧
    ((AIMsg.from_dict (AIMsg.mk (.pstr "wf1") (.pstr "doc1") (.pdict []) (.pbool false)).to_dict).brd_workflow_id =
      (AIMsg.mk (.pstr "wf1") (.pstr "doc1") (.pdict []) (.pbool false)).brd_workflow_id ∧
     (AIMsg.from_dict (AIMsg.mk (.pstr "wf1") (.pstr "doc1") (.pdict []) (.pbool false)).to_dict).document_id =
      (AIMsg.mk (.pstr "wf1") (.pstr "doc1") (.pdict []) (.pbool false)).document_id) :=
  ⟨pubsub_message_roundtrip_ids.1
      (CPMsg.mk (.pstr "wf1") (.pstr "doc1") (.pdict []) (.pbool false) "T") "T2"
      "wf1" "doc1" rfl (by decide) rfl (by decide),
   pubsub_message_roundtrip_ids.2
      (AIMsg.mk (.pstr "wf1") (.pstr "doc1") (.pdict []) (.pbool false))
      "wf1" "doc1" rfl (by decide) rfl (by decide)⟩

/-- C2: on every invocation of either stage, with any outcome of the
external collaborators, every storage side effect in the trace (copy,
upload, download, delete, metadata patch) is preceded by a successful write
of an IN_PROGRESS status record. -/
theorem status_written_before_storage_effects :
    (∀ (env : AIEnv) (st : FsStore) (objs : ObjStore)
       (event : Option (String × String)) (brd_id ts : String),
      checkWBE false (asset_indexer_run env st objs event brd_id ts).trace = true) ∧
    (∀ (env : CPEnv) (st : FsStore) (objs : ObjStore)
       (event : Option CPEvent) (ts : String),
      checkWBE false (content_processor_run env st objs event ts).trace = true) :=
  ⟨ai_checkWBE_all, cp_checkWBE_all⟩

/-- C6 counterexample: a concrete asset_indexer invocation in which the copy
succeeds, the COMPLETED record is upserted, and then the Pub/Sub publish
fails, makes the except handler upsert FAILED after COMPLETED in the same
invocation: the written status sequence is IN_PROGRESS, COMPLETED, FAILED,
leaving the terminal COMPLETED state. -/
theorem completed_then_failed_on_publish_failure :
    statusSeq (asset_indexer_run
      ⟨"drop", "proc", "meta", "emulator", true, true, false⟩ []
      [(("drop", "doc.html"), ⟨"content", none⟩)]
      (some ("drop", "doc.html")) "w1" "T").trace =
      ["in progress", "completed", "failed"] ∧
    storeStatus (asset_indexer_run
      ⟨"drop", "proc", "meta", "emulator", true, true, false⟩ []
      [(("drop", "doc.html"), ⟨"content", none⟩)]
      (some ("drop", "doc.html")) "w1" "T").store "meta" (.pstr "w1") =
      some "failed" := by
  constructor
  · decide
  · decide

/-- C6 amended: within a single stage invocation the asset_indexer status
record moves IN_PROGRESS then COMPLETED or FAILED — the possible written
status sequences are exactly [], [IN_PROGRESS, FAILED],
[IN_PROGRESS, COMPLETED] and [IN_PROGRESS, COMPLETED, FAILED] — but
COMPLETED is not terminal: when the completion publish fails after the
COMPLETED upsert, the same invocation upserts FAILED over it.  When the
publish succeeds no FAILED write follows COMPLETED. -/
theorem status_sequence_of_ingest_invocation :
    ∀ (env : AIEnv) (st : FsStore) (objs : ObjStore)
      (event : Option (String × String)) (brd_id ts : String),
      (statusSeq (asset_indexer_run env st objs event brd_id ts).trace = [] ∨
       statusSeq (asset_indexer_run env st objs event brd_id ts).trace =
         ["in progress", "failed"] ∨
       statusSeq (asset_indexer_run env st objs event brd_id ts).trace =
         ["in progress", "completed"] ∨
       statusSeq (asset_indexer_run env st objs event brd_id ts).trace =
         ["in progress", "completed", "failed"]) ∧
      (env.pubOk = true →
        statusSeq (asset_indexer_run env st objs event brd_id ts).trace ≠
          ["in progress", "completed", "failed"]) := by
  intro env st objs event brd_id ts
  refine ⟨ai_statusSeq_cases env st objs event brd_id ts, ?_⟩
  intro hpub
  cases hfs : env.fsOk with
  | false =>
    have hss : statusSeq (asset_indexer_run env st objs event brd_id ts).trace = [] := by
      rw [ai_run_store_down env st objs event brd_id ts hfs]
      rfl
    rw [hss]
    simp
  | true =>
    cases hsrc : objGet objs (aiSrc env event).1 (aiSrc env event).2 with
    | none =>
      have hss : statusSeq (asset_indexer_run env st objs event brd_id ts).trace =
          ["in progress", "failed"] := by
        rw [ai_run_src_missing env st objs event brd_id ts _ _ _ hfs rfl rfl rfl hsrc]
        rfl
      rw [hss]
      simp
    | some bd =>
      have hss : statusSeq (asset_indexer_run env st objs event brd_id ts).trace =
          ["in progress", "completed"] := by
        rw [ai_run_success env st objs event brd_id ts _ _ _ bd hfs hpub rfl rfl rfl hsrc]
        cases hemu : env.storage_emulator <;> rfl
      rw [hss]
      simp

theorem cpBaseFd_keys (ts dh desc : String) (s : FunctionStatus) :
    (cpBaseFd ts dh desc s).map Prod.fst = cpBaseKeys := rfl

theorem cp_create_shape (id wf : PyVal) (s : FunctionStatus)
    (desc dh : String) (e : PyDict) (ts : String) :
    dget (cp_create_function_execution id wf s desc dh e ts).to_dict "item" =
      some (.pdict [("function_data", .pdict (cpBaseFd ts dh desc s ++ e))]) := rfl

theorem cp_fd_nodup (ts dh desc : String) (s : FunctionStatus) (e : PyDict)
    (hn : (e.map Prod.fst).Nodup)
    (hb : ∀ k, k ∈ e.map Prod.fst → k ∉ cpBaseKeys) :
    ((cpBaseFd ts dh desc s ++ e).map Prod.fst).Nodup := by
  rw [List.map_append, cpBaseFd_keys]
  refine List.Nodup.append (by decide) hn ?_
  intro a ha1 ha2
  exact hb a ha2 ha1

theorem dget_cpBaseFd_none (ts dh desc : String) (s : FunctionStatus)
    (k : String) (hb : k ∉ cpBaseKeys) :
    dget (cpBaseFd ts dh desc s) k = none :=
  dget_eq_none _ _ (by rw [cpBaseFd_keys]; exact hb)

theorem dget_cp_fd_mem (ts dh desc : String) (s : FunctionStatus) (e : PyDict)
    (k : String) (v : PyVal) (hn : (e.map Prod.fst).Nodup)
    (hb : k ∉ cpBaseKeys) (hm : (k, v) ∈ e) :
    dget (cpBaseFd ts dh desc s ++ e) k = some v := by
  rw [dget_append, dget_cpBaseFd_none ts dh desc s k hb]
  exact dget_mem_nodup e k v hm hn

theorem dget_cp_fd_absent (ts dh desc : String) (s : FunctionStatus) (e : PyDict)
    (k : String) (hb : k ∉ cpBaseKeys) (he : k ∉ e.map Prod.fst) :
    dget (cpBaseFd ts dh desc s ++ e) k = none := by
  rw [dget_append, dget_cpBaseFd_none ts dh desc s k hb]
  exact dget_eq_none e k he

/-- Witness for the amended C6 on a concrete successful invocation. -/
theorem status_sequence_of_ingest_invocation_witness :
    statusSeq (asset_indexer_run
      ⟨"drop", "proc", "meta", "emulator", true, true, true⟩ []
      [(("drop", "doc.html"), ⟨"content", none⟩)]
      (some ("drop", "doc.html")) "w1" "T").trace ≠
      ["in progress", "completed", "failed"] :=
  (status_sequence_of_ingest_invocation
    ⟨"drop", "proc", "meta", "emulator", true, true, true⟩ []
    [(("drop", "doc.html"), ⟨"content", none⟩)]
    (some ("drop", "doc.html")) "w1" "T").2 rfl

/-- C1: when the stage work of an invocation raises, a FAILED status record
carrying the error description is upserted for that stage, no completion
message is published, and the invocation ends exceptionally.  For
asset_indexer the work raises exactly when the source object is missing,
and the original exception is re-raised.  For content_processor the domain
work never raises, because the IN_PROGRESS upsert itself always raises
first; the stronger unconditional fact is proved there: with a working
Firestore transport, every invocation ends with a FAILED record, publishes
nothing, and raises. -/
theorem stage_failure_records_failed_and_publishes_nothing :
    (∀ (env : AIEnv) (st : FsStore) (objs : ObjStore)
       (event : Option (String × String)) (brd_id ts : String),
      env.fsOk = true →
      objGet objs (aiSrc env event).1 (aiSrc env event).2 = none →
      storeStatus (asset_indexer_run env st objs event brd_id ts).store
          env.collection (.pstr brd_id) = some "failed" ∧
      topField (asset_indexer_run env st objs event brd_id ts).store
          env.collection (.pstr brd_id) "description" =
        some (.pstr ("Failed to process BRD document: " ++
          notFoundMsg (aiSrc env event).1 (aiSrc env event).2)) ∧
      noPublish (asset_indexer_run env st objs event brd_id ts).trace = true ∧
      (asset_indexer_run env st objs event brd_id ts).outcome =
        .error (notFoundMsg (aiSrc env event).1 (aiSrc env event).2)) ∧
    (∀ (env : CPEnv) (st : FsStore) (objs : ObjStore)
       (event : Option CPEvent) (ts : String) (docId : PyVal),
      env.setOk = true →
      docId = (if pyTruthy (cp_parse env event ts).2.1
               then (cp_parse env event ts).2.1
               else .pstr "unknown_document_id") →
      storeStatus (content_processor_run env st objs event ts).store
          env.collection docId = some "failed" ∧
      topField (content_processor_run env st objs event ts).store
          env.collection docId "description" =
        some (.pstr ("Failed to process BRD content: " ++ sleepNameError)) ∧
      noPublish (content_processor_run env st objs event ts).trace = true ∧
      (content_processor_run env st objs event ts).outcome =
        .error sleepNameError) := by
  constructor
  · intro env st objs event brd_id ts hfs hsrc
    rw [ai_run_src_missing env st objs event brd_id ts _ _ _ hfs rfl rfl rfl hsrc]
    refine ⟨?_, ?_, rfl, rfl⟩
    · exact storeStatus_fsSetMerge_new _ _ _ _ _ "failed"
        (doc_to_dict_keys_nodup _) (aiFailedDoc_shape env _ _ brd_id ts _)
        (aiFailedFd_nodup _ _ _ _ _ _ _ _) rfl
    · exact topField_fsSetMerge_new _ _ _ _ "description" _
        (doc_to_dict_keys_nodup _) rfl rfl
  · intro env st objs event ts docId hset hdoc
    subst hdoc
    rw [cp_run_setOk env st objs event ts _ _ _ _ hset rfl rfl rfl rfl]
    refine ⟨?_, ?_, rfl, rfl⟩
    · exact storeStatus_fsSetMerge_new _ _ _ _ _ "failed"
        (doc_to_dict_keys_nodup _) (cpFailedDoc_shape env _ _ _ ts)
        (cpFailedFd_nodup env _ ts) rfl
    · exact topField_fsSetMerge_new _ _ _ _ "description" _
        (doc_to_dict_keys_nodup _) rfl rfl

/-- Witness for C1: a concrete asset_indexer invocation with a missing
source object, and a concrete content_processor invocation on the mock
path. -/
theorem stage_failure_witness :
    (storeStatus (asset_indexer_run
        ⟨"drop", "proc", "meta", "emulator", true, true, true⟩ [] []
        (some ("drop", "doc.html")) "w1" "T").store "meta" (.pstr "w1") =
      some "failed" ∧
     topField (asset_indexer_run
        ⟨"drop", "proc", "meta", "emulator", true, true, true⟩ [] []
        (some ("drop", "doc.html")) "w1" "T").store "meta" (.pstr "w1")
        "description" =
      some (.pstr ("Failed to process BRD document: " ++
        notFoundMsg "drop" "doc.html")) ∧
     noPublish (asset_indexer_run
        ⟨"drop", "proc", "meta", "emulator", true, true, true⟩ [] []
        (some ("drop", "doc.html")) "w1" "T").trace = true ∧
     (asset_indexer_run
        ⟨"drop", "proc", "meta", "emulator", true, true, true⟩ [] []
        (some ("drop", "doc.html")) "w1" "T").outcome =
      .error (notFoundMsg "drop" "doc.html")) ∧
    (storeStatus (content_processor_run
        ⟨"proc", "meta", false, "emulator", true, true⟩ [] [] none "T").store
        "meta" (.pstr "mock_document_id") = some "failed" ∧
     topField (content_processor_run
        ⟨"proc", "meta", false, "emulator", true, true⟩ [] [] none "T").store
        "meta" (.pstr "mock_document_id") "description" =
      some (.pstr ("Failed to process BRD content: " ++ sleepNameError)) ∧
     noPublish (content_processor_run
        ⟨"proc", "meta", false, "emulator", true, true⟩ [] [] none "T").trace = true ∧
     (content_processor_run
        ⟨"proc", "meta", false, "emulator", true, true⟩ [] [] none "T").outcome =
      .error sleepNameError) :=
  ⟨stage_failure_records_failed_and_publishes_nothing.1
      ⟨"drop", "proc", "meta", "emulator", true, true, true⟩ [] []
      (some ("drop", "doc.html")) "w1" "T" rfl rfl,
   stage_failure_records_failed_and_publishes_nothing.2
      ⟨"proc", "meta", false, "emulator", true, true⟩ [] [] none "T"
      (.pstr "mock_document_id") rfl rfl⟩

/-- C3: a malformed inbound message to content_processor — a cloud event
missing its type or data attribute, or whose payload does not parse — is
caught at the boundary, the error sentinels are substituted as workflow and
document ids so that a status record can still be written, and the
invocation is still treated as failed: its status sequence is IN_PROGRESS
then FAILED under the sentinel document id, nothing is published, and it
ends exceptionally. -/
theorem malformed_event_writes_sentinel_failed_record :
    ∀ (env : CPEnv) (st : FsStore) (objs : ObjStore) (e : CPEvent) (ts : String),
      env.setOk = true → env.is_local_test = false →
      (e.typ = none ∨ e.dat = none ∨ e.dat = some ⟨some .garbage⟩) →
      statusSeq (content_processor_run env st objs (some e) ts).trace =
        ["in progress", "failed"] ∧
      storeStatus (content_processor_run env st objs (some e) ts).store
        env.collection (.pstr "error_document_id") = some "failed" ∧
      topField (content_processor_run env st objs (some e) ts).store
        env.collection (.pstr "error_document_id") "brd_workflow_id" =
        some (.pstr "error_workflow_id") ∧
      noPublish (content_processor_run env st objs (some e) ts).trace = true ∧
      (content_processor_run env st objs (some e) ts).outcome =
        .error sleepNameError := by
  intro env st objs e ts hset hlt hbad
  have hp := cp_parse_malformed env e ts hlt hbad
  rw [cp_run_setOk env st objs (some e) ts
    (.pstr "error_workflow_id") (.pstr "error_document_id")
    (.pstr "error_document_id") (.pstr "error_workflow_id")
    hset (by rw [hp]) (by rw [hp]) rfl rfl]
  refine ⟨rfl, ?_, ?_, rfl, rfl⟩
  · exact storeStatus_fsSetMerge_new _ _ _ _ _ "failed"
      (doc_to_dict_keys_nodup _) (cpFailedDoc_shape env _ _ _ ts)
      (cpFailedFd_nodup env _ ts) rfl
  · exact topField_fsSetMerge_new _ _ _ _ "brd_workflow_id" _
      (doc_to_dict_keys_nodup _) rfl rfl

/-- Witness for C3: a concrete cloud event whose payload fails to parse. -/
theorem malformed_event_witness :
    statusSeq (content_processor_run
      ⟨"proc", "meta", false, "emulator", true, true⟩ [] []
      (some ⟨some "google.cloud.pubsub.topic.v1.messagePublished",
             some ⟨some WireData.garbage⟩⟩) "T").trace =
      ["in progress", "failed"] ∧
    storeStatus (content_processor_run
      ⟨"proc", "meta", false, "emulator", true, true⟩ [] []
      (some ⟨some "google.cloud.pubsub.topic.v1.messagePublished",
             some ⟨some WireData.garbage⟩⟩) "T").store "meta"
      (.pstr "error_document_id") = some "failed" ∧
    topField (content_processor_run
      ⟨"proc", "meta", false, "emulator", true, true⟩ [] []
      (some ⟨some "google.cloud.pubsub.topic.v1.messagePublished",
             some ⟨some WireData.garbage⟩⟩) "T").store "meta"
      (.pstr "error_document_id") "brd_workflow_id" =
      some (.pstr "error_workflow_id") ∧
    noPublish (content_processor_run
      ⟨"proc", "meta", false, "emulator", true, true⟩ [] []
      (some ⟨some "google.cloud.pubsub.topic.v1.messagePublished",
             some ⟨some WireData.garbage⟩⟩) "T").trace = true ∧
    (content_processor_run
      ⟨"proc", "meta", false, "emulator", true, true⟩ [] []
      (some ⟨some "google.cloud.pubsub.topic.v1.messagePublished",
             some ⟨some WireData.garbage⟩⟩) "T").outcome =
      .error sleepNameError :=
  malformed_event_writes_sentinel_failed_record
    ⟨"proc", "meta", false, "emulator", true, true⟩ [] []
    ⟨some "google.cloud.pubsub.topic.v1.messagePublished",
     some ⟨some WireData.garbage⟩⟩ "T" rfl rfl (Or.inr (Or.inr rfl))

/-- C4 counterexample: re-triggering the ingest stage on the same
{bucket, name} event does not collapse onto the same status record and the
delete of the source is not a no-op.  Concretely: the first invocation
(workflow id w1) completes and deletes the source; the second invocation
generates a fresh workflow id w2, writes a second, distinct record, and
fails with the not-found error because the source object is gone — the
terminal statuses of the two runs differ. -/
theorem ingest_rerun_counterexample :
    storeStatus (asset_indexer_run
      ⟨"drop", "proc", "meta", "emulator", true, true, true⟩
      (asset_indexer_run
        ⟨"drop", "proc", "meta", "emulator", true, true, true⟩ []
        [(("drop", "doc.html"), ⟨"content", none⟩)]
        (some ("drop", "doc.html")) "w1" "T1").store
      (asset_indexer_run
        ⟨"drop", "proc", "meta", "emulator", true, true, true⟩ []
        [(("drop", "doc.html"), ⟨"content", none⟩)]
        (some ("drop", "doc.html")) "w1" "T1").objs
      (some ("drop", "doc.html")) "w2" "T2").store "meta" (.pstr "w1") =
      some "completed" ∧
    storeStatus (asset_indexer_run
      ⟨"drop", "proc", "meta", "emulator", true, true, true⟩
      (asset_indexer_run
        ⟨"drop", "proc", "meta", "emulator", true, true, true⟩ []
        [(("drop", "doc.html"), ⟨"content", none⟩)]
        (some ("drop", "doc.html")) "w1" "T1").store
      (asset_indexer_run
        ⟨"drop", "proc", "meta", "emulator", true, true, true⟩ []
        [(("drop", "doc.html"), ⟨"content", none⟩)]
        (some ("drop", "doc.html")) "w1" "T1").objs
      (some ("drop", "doc.html")) "w2" "T2").store "meta" (.pstr "w2") =
      some "failed" ∧
    (asset_indexer_run
      ⟨"drop", "proc", "meta", "emulator", true, true, true⟩
      (asset_indexer_run
        ⟨"drop", "proc", "meta", "emulator", true, true, true⟩ []
        [(("drop", "doc.html"), ⟨"content", none⟩)]
        (some ("drop", "doc.html")) "w1" "T1").store
      (asset_indexer_run
        ⟨"drop", "proc", "meta", "emulator", true, true, true⟩ []
        [(("drop", "doc.html"), ⟨"content", none⟩)]
        (some ("drop", "doc.html")) "w1" "T1").objs
      (some ("drop", "doc.html")) "w2" "T2").outcome =
      .error (notFoundMsg "drop" "doc.html") := by
  refine ⟨by decide, by decide, rfl⟩

/-- C4 amended: re-running the ingest stage for the same inbound
{bucket, name} event does not collapse onto one record and is not
side-effect idempotent.  Each invocation generates a fresh workflow id and
upserts its own record; the source delete carries no
destination-already-exists guard, so after a first successful run a re-run
finds the source missing and terminates with a FAILED record under the new
workflow id, re-raising the not-found error and publishing nothing. -/
theorem ingest_rerun_not_idempotent :
    ∀ (env : AIEnv) (st : FsStore) (objs : ObjStore)
      (b n w1 w2 ts1 ts2 : String) (bd : BlobData),
      env.fsOk = true → env.pubOk = true →
      objGet objs b n = some bd → w1 ≠ w2 →
      storeStatus (asset_indexer_run env
          (asset_indexer_run env st objs (some (b, n)) w1 ts1).store
          (asset_indexer_run env st objs (some (b, n)) w1 ts1).objs
          (some (b, n)) w2 ts2).store env.collection (.pstr w1) =
        some "completed" ∧
      storeStatus (asset_indexer_run env
          (asset_indexer_run env st objs (some (b, n)) w1 ts1).store
          (asset_indexer_run env st objs (some (b, n)) w1 ts1).objs
          (some (b, n)) w2 ts2).store env.collection (.pstr w2) =
        some "failed" ∧
      (asset_indexer_run env
          (asset_indexer_run env st objs (some (b, n)) w1 ts1).store
          (asset_indexer_run env st objs (some (b, n)) w1 ts1).objs
          (some (b, n)) w2 ts2).outcome = .error (notFoundMsg b n) ∧
      noPublish (asset_indexer_run env
          (asset_indexer_run env st objs (some (b, n)) w1 ts1).store
          (asset_indexer_run env st objs (some (b, n)) w1 ts1).objs
          (some (b, n)) w2 ts2).trace = true := by
  intro env st objs b n w1 w2 ts1 ts2 bd hfs hpub hsrc hw
  have h1 := ai_run_success env st objs (some (b, n)) w1 ts1 b n
    (w1 ++ splitextExt n) bd hfs hpub rfl rfl rfl hsrc
  have hobj : objGet (asset_indexer_run env st objs (some (b, n)) w1 ts1).objs
      b n = none := by
    rw [h1]
    exact objGet_objDel_self _ _ _
  rw [ai_run_src_missing env
    (asset_indexer_run env st objs (some (b, n)) w1 ts1).store
    (asset_indexer_run env st objs (some (b, n)) w1 ts1).objs
    (some (b, n)) w2 ts2 b n (w2 ++ splitextExt n) hfs rfl rfl rfl hobj]
  have hne := collId_pstr_ne env.collection w1 w2 hw
  refine ⟨?_, ?_, rfl, rfl⟩
  · rw [show (⟨_, fsSetMerge
        (fsSetMerge (asset_indexer_run env st objs (some (b, n)) w1 ts1).store
          env.collection (.pstr w2) (aiIpDoc env w2 ts2).to_dict)
        env.collection (.pstr w2)
        (aiFailedDoc env n (w2 ++ splitextExt n) w2 ts2 (notFoundMsg b n)).to_dict,
        _, _⟩ : AIResult).store = fsSetMerge
        (fsSetMerge (asset_indexer_run env st objs (some (b, n)) w1 ts1).store
          env.collection (.pstr w2) (aiIpDoc env w2 ts2).to_dict)
        env.collection (.pstr w2)
        (aiFailedDoc env n (w2 ++ splitextExt n) w2 ts2 (notFoundMsg b n)).to_dict
      from rfl]
    rw [storeStatus_fsSetMerge_other _ _ _ _ _ _ hne,
      storeStatus_fsSetMerge_other _ _ _ _ _ _ hne, h1]
    exact storeStatus_fsSetMerge_new _ _ _ _ _ "completed"
      (doc_to_dict_keys_nodup _) (aiCompletedDoc_shape env w1 ts1)
      (aiBaseFd_nodup _ _ _ _ _) rfl
  · exact storeStatus_fsSetMerge_new _ _ _ _ _ "failed"
      (doc_to_dict_keys_nodup _) (aiFailedDoc_shape env _ _ w2 ts2 _)
      (aiFailedFd_nodup _ _ _ _ _ _ _ _) rfl

/-- Witness for the amended C4 on concrete input. -/
theorem ingest_rerun_not_idempotent_witness :
    storeStatus (asset_indexer_run
      ⟨"drop", "proc", "meta", "production", false, true, true⟩
      (asset_indexer_run
        ⟨"drop", "proc", "meta", "production", false, true, true⟩ []
        [(("drop", "a.html"), ⟨"x", none⟩)] (some ("drop", "a.html")) "w1" "T1").store
      (asset_indexer_run
        ⟨"drop", "proc", "meta", "production", false, true, true⟩ []
        [(("drop", "a.html"), ⟨"x", none⟩)] (some ("drop", "a.html")) "w1" "T1").objs
      (some ("drop", "a.html")) "w2" "T2").store "meta" (.pstr "w1") =
      some "completed" ∧
    storeStatus (asset_indexer_run
      ⟨"drop", "proc", "meta", "production", false, true, true⟩
      (asset_indexer_run
        ⟨"drop", "proc", "meta", "production", false, true, true⟩ []
        [(("drop", "a.html"), ⟨"x", none⟩)] (some ("drop", "a.html")) "w1" "T1").store
      (asset_indexer_run
        ⟨"drop", "proc", "meta", "production", false, true, true⟩ []
        [(("drop", "a.html"), ⟨"x", none⟩)] (some ("drop", "a.html")) "w1" "T1").objs
      (some ("drop", "a.html")) "w2" "T2").store "meta" (.pstr "w2") =
      some "failed" ∧
    (asset_indexer_run
      ⟨"drop", "proc", "meta", "production", false, true, true⟩
      (asset_indexer_run
        ⟨"drop", "proc", "meta", "production", false, true, true⟩ []
        [(("drop", "a.html"), ⟨"x", none⟩)] (some ("drop", "a.html")) "w1" "T1").store
      (asset_indexer_run
        ⟨"drop", "proc", "meta", "production", false, true, true⟩ []
        [(("drop", "a.html"), ⟨"x", none⟩)] (some ("drop", "a.html")) "w1" "T1").objs
      (some ("drop", "a.html")) "w2" "T2").outcome =
      .error (notFoundMsg "drop" "a.html") ∧
    noPublish (asset_indexer_run
      ⟨"drop", "proc", "meta", "production", false, true, true⟩
      (asset_indexer_run
        ⟨"drop", "proc", "meta", "production", false, true, true⟩ []
        [(("drop", "a.html"), ⟨"x", none⟩)] (some ("drop", "a.html")) "w1" "T1").store
      (asset_indexer_run
        ⟨"drop", "proc", "meta", "production", false, true, true⟩ []
        [(("drop", "a.html"), ⟨"x", none⟩)] (some ("drop", "a.html")) "w1" "T1").objs
      (some ("drop", "a.html")) "w2" "T2").trace = true :=
  ingest_rerun_not_idempotent
    ⟨"drop", "proc", "meta", "production", false, true, true⟩ []
    [(("drop", "a.html"), ⟨"x", none⟩)] "drop" "a.html" "w1" "w2" "T1" "T2"
    ⟨"x", none⟩ rfl rfl rfl (by decide)

/-- C5: the status upsert merges rather than overwrites.  Calling the
content_processor firestore_upsert twice for the same document id, with
extras field sets that are disjoint from each other and from the base
function_data keys (and leaf-valued, as status fields are), yields a stored
record containing the union of both field sets: the record exists
afterwards, the second call does not overwrite the first call's fields, and
any function_data field of a pre-existing record that neither call supplies
keeps its old value. -/
theorem upsert_twice_disjoint_fields_union :
    ∀ (st : FsStore) (coll : String) (id wf1 wf2 : PyVal)
      (s1 s2 : FunctionStatus) (desc1 desc2 dh1 dh2 ts1 ts2 : String)
      (e1 e2 : PyDict) (st2 : FsStore),
      (e1.map Prod.fst).Nodup → (e2.map Prod.fst).Nodup →
      (∀ k, k ∈ e1.map Prod.fst → k ∉ e2.map Prod.fst) →
      (∀ k, k ∈ e1.map Prod.fst → k ∉ cpBaseKeys) →
      (∀ k, k ∈ e2.map Prod.fst → k ∉ cpBaseKeys) →
      (∀ p ∈ e1, PyVal.isDict p.2 = false) →
      (∀ p ∈ e2, PyVal.isDict p.2 = false) →
      st2 = (cp_firestore_upsert true
        (cp_firestore_upsert true st coll
          (cp_create_function_execution id wf1 s1 desc1 dh1 e1 ts1)).2.1
        coll (cp_create_function_execution id wf2 s2 desc2 dh2 e2 ts2)).2.1 →
      (∃ r, storeGet st2 coll id = some r) ∧
      (∀ p ∈ e1, fdField st2 coll id p.1 = some p.2) ∧
      (∀ p ∈ e2, fdField st2 coll id p.1 = some p.2) ∧
      (∀ k, k ∉ cpBaseKeys → k ∉ e1.map Prod.fst → k ∉ e2.map Prod.fst →
        fdField st2 coll id k = fdField st coll id k) := by
  intro st coll id wf1 wf2 s1 s2 desc1 desc2 dh1 dh2 ts1 ts2 e1 e2 st2
    hn1 hn2 hdisj hb1 hb2 hleaf1 hleaf2 hst2
  have hform : st2 = fsSetMerge
      (fsSetMerge st coll id
        (cp_create_function_execution id wf1 s1 desc1 dh1 e1 ts1).to_dict)
      coll id (cp_create_function_execution id wf2 s2 desc2 dh2 e2 ts2).to_dict :=
    hst2.trans rfl
  rw [hform]
  refine ⟨⟨_, storeGet_fsSetMerge_self _ _ _ _⟩, ?_, ?_, ?_⟩
  · intro p hp
    obtain ⟨k, v⟩ := p
    have hk1 : k ∈ e1.map Prod.fst := List.mem_map.mpr ⟨(k, v), hp, rfl⟩
    rw [fdField_fsSetMerge_absent _ _ _ _ _ k (doc_to_dict_keys_nodup _)
      (cp_create_shape id wf2 s2 desc2 dh2 e2 ts2)
      (cp_fd_nodup ts2 dh2 desc2 s2 e2 hn2 hb2)
      (dget_cp_fd_absent ts2 dh2 desc2 s2 e2 k (hb1 k hk1) (hdisj k hk1))]
    exact fdField_fsSetMerge_new _ _ _ _ _ k v (doc_to_dict_keys_nodup _)
      (cp_create_shape id wf1 s1 desc1 dh1 e1 ts1)
      (cp_fd_nodup ts1 dh1 desc1 s1 e1 hn1 hb1)
      (dget_cp_fd_mem ts1 dh1 desc1 s1 e1 k v hn1 (hb1 k hk1) hp)
      (hleaf1 (k, v) hp)
  · intro p hp
    obtain ⟨k, v⟩ := p
    have hk2 : k ∈ e2.map Prod.fst := List.mem_map.mpr ⟨(k, v), hp, rfl⟩
    exact fdField_fsSetMerge_new _ _ _ _ _ k v (doc_to_dict_keys_nodup _)
      (cp_create_shape id wf2 s2 desc2 dh2 e2 ts2)
      (cp_fd_nodup ts2 dh2 desc2 s2 e2 hn2 hb2)
      (dget_cp_fd_mem ts2 dh2 desc2 s2 e2 k v hn2 (hb2 k hk2) hp)
      (hleaf2 (k, v) hp)
  · intro k hkb hk1 hk2
    rw [fdField_fsSetMerge_absent _ _ _ _ _ k (doc_to_dict_keys_nodup _)
      (cp_create_shape id wf2 s2 desc2 dh2 e2 ts2)
      (cp_fd_nodup ts2 dh2 desc2 s2 e2 hn2 hb2)
      (dget_cp_fd_absent ts2 dh2 desc2 s2 e2 k hkb hk2),
      fdField_fsSetMerge_absent _ _ _ _ _ k (doc_to_dict_keys_nodup _)
      (cp_create_shape id wf1 s1 desc1 dh1 e1 ts1)
      (cp_fd_nodup ts1 dh1 desc1 s1 e1 hn1 hb1)
      (dget_cp_fd_absent ts1 dh1 desc1 s1 e1 k hkb hk1)]

/-- Witness for C5: two concrete upserts with extras fields a and b. -/
theorem upsert_twice_disjoint_fields_union_witness :
    fdField ((cp_firestore_upsert true
        (cp_firestore_upsert true [] "meta"
          (cp_create_function_execution (.pstr "d") (.pstr "w1")
            .in_progress "x1" "y1" [("a", .pstr "1")] "T1")).2.1
        "meta" (cp_create_function_execution (.pstr "d") (.pstr "w2")
          .completed "x2" "y2" [("b", .pstr "2")] "T2")).2.1)
      "meta" (.pstr "d") "a" = some (.pstr "1") ∧
    fdField ((cp_firestore_upsert true
        (cp_firestore_upsert true [] "meta"
          (cp_create_function_execution (.pstr "d") (.pstr "w1")
            .in_progress "x1" "y1" [("a", .pstr "1")] "T1")).2.1
        "meta" (cp_create_function_execution (.pstr "d") (.pstr "w2")
          .completed "x2" "y2" [("b", .pstr "2")] "T2")).2.1)
      "meta" (.pstr "d") "b" = some (.pstr "2") :=
  ⟨(upsert_twice_disjoint_fields_union [] "meta" (.pstr "d") (.pstr "w1")
      (.pstr "w2") .in_progress .completed "x1" "x2" "y1" "y2" "T1" "T2"
      [("a", .pstr "1")] [("b", .pstr "2")] _
      (by decide) (by decide)
      (by intro k hk; simp at hk; subst hk; decide)
      (by intro k hk; simp at hk; subst hk; decide)
      (by intro k hk; simp at hk; subst hk; decide)
      (by intro p hp; simp at hp; subst hp; rfl)
      (by intro p hp; simp at hp; subst hp; rfl)
      rfl).2.1 ("a", .pstr "1") (by decide),
   (upsert_twice_disjoint_fields_union [] "meta" (.pstr "d") (.pstr "w1")
      (.pstr "w2") .in_progress .completed "x1" "x2" "y1" "y2" "T1" "T2"
      [("a", .pstr "1")] [("b", .pstr "2")] _
      (by decide) (by decide)
      (by intro k hk; simp at hk; subst hk; decide)
      (by intro k hk; simp at hk; subst hk; decide)
      (by intro k hk; simp at hk; subst hk; decide)
      (by intro p hp; simp at hp; subst hp; rfl)
      (by intro p hp; simp at hp; subst hp; rfl)
      rfl).2.2.1 ("b", .pstr "2") (by decide)⟩

end Brd
